import Mathlib

/-!
# WatchParty room coordination server

Shallow embedding of the socket handlers of `server/server.js` (lines 63-159):
the two in-memory maps `roomUsers` and `roomState`, the per-connection
`socket.data`, and the socket.io room membership that decides who receives
an emitted event; of the range branch of its `/stream` route (lines 36-47);
and of two client handlers, `onSyncResponse` with `applySync`
(`VideoPlayer.jsx`) and `onMsg` (`Chat.jsx`).

Modelling conventions
* identifiers carried in payloads (`roomId`, `userId`, `toSocketId`, ...) are
  strings or absent; `none` stands for JavaScript `undefined`;
* a JavaScript number is a rational (`currentTime`, message ids), a
  `Date.now()` reading is a natural number of milliseconds;
* clock readings and random draws are inputs of a handler (`Env`);
* `roomUsers` and `roomState` are plain objects used as maps: a room id is
  turned into a property name (`propKey`), and a lookup returns `none` when
  the property is absent (room ids are taken not to be names that a plain
  object inherits, such as `constructor`);
* socket.io delivery follows its documented room semantics: every connection
  is a member of the room named by its own id, `socket.join(r)` adds the
  connection to room `r`, `io.to(r).emit` reaches every member of `r`,
  `socket.emit` reaches the emitting connection only, and
  `socket.to(r).emit` reaches the members of `r` that are not in the room
  named by the id of the emitting connection: socket.io 4 builds the
  operator with that room as the excepted room, so the emitting connection is
  left out together with every connection that has entered the room of that
  name.
-/

namespace WatchParty

/-! ## Values -/

/-- JSON scalar carried opaquely inside payloads. -/
inductive Val where
  | null
  | bool (b : Bool)
  | num (q : ℚ)
  | str (s : String)
deriving DecidableEq

/-- Roster element: `{socketId, userId, username, avatar_color}`. -/
structure User where
  socketId : String
  userId : Option String
  username : Option String
  avatar_color : Option String
deriving DecidableEq

/-- Cached playback state `{videoId, currentTime, playing, updatedAt}`; a
field that was never assigned reads as `undefined` (`none`). -/
structure PlaybackState where
  videoId : Option String
  currentTime : Option ℚ
  playing : Option Bool
  updatedAt : Option Nat
deriving DecidableEq

/-- The empty object `{}` created by `roomState[roomId] = {}`. -/
def PlaybackState.empty : PlaybackState := ⟨none, none, none, none⟩

/-- Per-connection `socket.data`. -/
structure SocketData where
  roomId : Option String
  userId : Option String
  username : Option String
  isSharing : Option Bool
deriving DecidableEq

/-- Initial `socket.data`, the empty object. -/
def SocketData.empty : SocketData := ⟨none, none, none, none⟩

/-- The `video` object of a `video_change` payload: its `id` and its other
properties. -/
structure Video where
  id : Option String
  props : List (String × Val)
deriving DecidableEq

/-- Readings a handler takes from its environment: the first and the second
`Date.now()` of the handler, the `Math.random()` draw and the string given by
`new Date().toISOString()`. -/
structure Env where
  now : Nat
  now2 : Nat
  rand : ℚ
  iso : String
deriving DecidableEq

/-! ## JavaScript helpers -/

/-- Truthiness of a string-or-undefined value: `undefined` and `""` are falsy. -/
def truthy : Option String → Bool
  | none => false
  | some s => s != ""

/-- Property name used when a value indexes a plain object. -/
def propKey : Option String → String
  | none => "undefined"
  | some s => s

/-- Assignment `m[k] = v` on a map. -/
def setAt {α : Type} (m : String → α) (k : String) (v : α) : String → α :=
  fun x => if x = k then v else m x

/-- Property lookup in an object given as its list of own properties. -/
def getProp (k : String) : List (String × Val) → Option Val
  | [] => none
  | (k', v) :: rest => if k' = k then some v else getProp k rest

/-- Whether the object has own property `k`. -/
def hasProp (k : String) (ps : List (String × Val)) : Bool :=
  ps.any (fun p => p.1 == k)

/-- Object literal `{...o, k: v}`: an existing property keeps its place and
takes the new value, a new property goes last. -/
def setProp (k : String) (v : Val) (ps : List (String × Val)) : List (String × Val) :=
  if hasProp k ps then ps.map (fun p => (p.1, if p.1 = k then v else p.2))
  else ps ++ [(k, v)]

/-! ## Emissions -/

/-- Addressing of an emitted event. -/
inductive Target where
  /-- Addressing `io.to(r).emit`: every member of room `r`. -/
  | room (r : Option String)
  /-- Addressing `socket.to(r).emit`: the members of `r` outside the room
  named by the sender's id. -/
  | others (sender : String) (r : Option String)
  /-- Addressing `socket.emit`: the connection itself. -/
  | self (c : String)
deriving DecidableEq

/-- Server-to-client events with their payloads. -/
inductive Payload where
  | room_users (roster : List User)
  | user_joined (username : Option String)
  | user_left (username : Option String)
  | initial_sync (st : PlaybackState)
  | receive_message (roomId : Option String) (props : List (String × Val))
  | typing (username : Option String)
  | stop_typing
  | video_change (video : Option Video)
  | playback_event (state : Option String) (currentTime : Option ℚ) (serverTs : Nat)
  | sync_please (toSocketId : String)
  | sync_response (currentTime : Option ℚ) (playing : Option Bool) (videoId : Option String)
  | screen_share_available (sharerId : String) (sharerName : Option String)
  | screen_share_ended
  | webrtc_request (fromSocketId : String)
  | webrtc_offer (fromSocketId : String) (offer : Val)
  | webrtc_answer (fromSocketId : String) (answer : Val)
  | webrtc_ice (fromSocketId : String) (candidate : Val)
deriving DecidableEq

/-- One `emit` call. -/
structure Emission where
  target : Target
  payload : Payload
deriving DecidableEq

/-! ## Server state -/

/-- State of the process: the two maps of `server.js` and, per connection id,
whether it is connected, the rooms it entered with `socket.join`, and its
`socket.data`. -/
structure Server where
  roomUsers : String → Option (List User)
  roomState : String → Option PlaybackState
  live : String → Bool
  joined : String → List (Option String)
  data : String → SocketData

/-- State at start-up: `roomUsers = {}`, `roomState = {}`, no connection. -/
def Server.init : Server :=
  { roomUsers := fun _ => none
    roomState := fun _ => none
    live := fun _ => false
    joined := fun _ => []
    data := fun _ => SocketData.empty }

/-- Membership of connection `c` in socket.io room `r`. -/
def inRoom (sv : Server) (c : String) (r : Option String) : Bool :=
  sv.live c && (r == some c || (sv.joined c).contains r)

/-- Whether connection `c` receives an emission addressed to `t`. For
`socket.to(r)` the excepted connections are the members of the room named by
the sender's id. -/
def reaches (sv : Server) (t : Target) (c : String) : Bool :=
  match t with
  | Target.room r => inRoom sv c r
  | Target.others sender r => inRoom sv c r && !inRoom sv c (some sender)
  | Target.self c' => sv.live c && c == c'

/-- Emissions of a list that connection `c` receives. -/
def received (sv : Server) (ems : List Emission) (c : String) : List Emission :=
  ems.filter (fun e => reaches sv e.target c)

/-! ## Handlers (server.js, `io.on('connection', ...)`) -/

/-- Handler `socket.on('join_room')`, lines 72-87. -/
def joinRoom (sv : Server) (c : String)
    (roomId userId username avatar_color : Option String) : Server × List Emission :=
  let key := propKey roomId
  let prev := (sv.roomUsers key).getD []
  let roster := prev.filter (fun u => u.userId != userId) ++ [⟨c, userId, username, avatar_color⟩]
  let sv1 : Server :=
    { sv with
      joined := setAt sv.joined c (if (sv.joined c).contains roomId then sv.joined c
                                   else sv.joined c ++ [roomId])
      data := setAt sv.data c ⟨roomId, userId, username, none⟩
      roomUsers := setAt sv.roomUsers key (some roster) }
  (sv1,
    [⟨Target.room roomId, Payload.room_users roster⟩,
     ⟨Target.others c roomId, Payload.user_joined username⟩]
    ++ (match sv.roomState key with
        | some st => [⟨Target.self c, Payload.initial_sync st⟩]
        | none => []))

/-- Handler `socket.on('send_message')`, lines 90-94. -/
def sendMessage (sv : Server) (env : Env) (roomId : Option String)
    (props : List (String × Val)) : Server × List Emission :=
  (sv, [⟨Target.room roomId,
         Payload.receive_message roomId
           (setProp "time" (Val.str env.iso)
             (setProp "id" (Val.num ((env.now : ℚ) + env.rand)) props))⟩])

/-- Handler `socket.on('typing')`, line 95. -/
def typing (sv : Server) (c : String) (roomId username : Option String) :
    Server × List Emission :=
  (sv, [⟨Target.others c roomId, Payload.typing username⟩])

/-- Handler `socket.on('stop_typing')`, line 96. -/
def stopTyping (sv : Server) (c : String) (roomId : Option String) :
    Server × List Emission :=
  (sv, [⟨Target.others c roomId, Payload.stop_typing⟩])

/-- Handler `socket.on('video_change')`, lines 99-102; `video?.id` is
`undefined` when `video` is absent. -/
def videoChange (sv : Server) (c : String) (env : Env) (roomId : Option String)
    (video : Option Video) : Server × List Emission :=
  ({ sv with
     roomState := setAt sv.roomState (propKey roomId)
       (some ⟨video.bind (fun v => v.id), some 0, some false, some env.now⟩) },
   [⟨Target.others c roomId, Payload.video_change video⟩])

/-- Handler `socket.on('playback_event')`, lines 106-114. -/
def playbackEvent (sv : Server) (c : String) (env : Env) (roomId : Option String)
    (state : Option String) (currentTime : Option ℚ) : Server × List Emission :=
  let key := propKey roomId
  let st := (sv.roomState key).getD PlaybackState.empty
  ({ sv with
     roomState := setAt sv.roomState key
       (some { st with
               currentTime := currentTime
               playing := some (state == some "playing")
               updatedAt := some env.now }) },
   [⟨Target.others c roomId, Payload.playback_event state currentTime env.now2⟩])

/-- Handler `socket.on('request_sync')`, lines 118-120. -/
def requestSync (sv : Server) (c : String) (roomId : Option String) :
    Server × List Emission :=
  (sv, [⟨Target.others c roomId, Payload.sync_please c⟩])

/-- Handler `socket.on('sync_response')`, lines 123-133. -/
def syncResponse (sv : Server) (c : String) (toSocketId : Option String)
    (currentTime : Option ℚ) (playing : Option Bool) (videoId : Option String) :
    Server × List Emission :=
  let rid := (sv.data c).roomId
  let sv1 : Server :=
    if truthy rid then
      let st := (sv.roomState (propKey rid)).getD PlaybackState.empty
      { sv with
        roomState := setAt sv.roomState (propKey rid)
          (some { st with currentTime := currentTime, playing := playing, videoId := videoId }) }
    else sv
  (sv1, [⟨Target.room toSocketId, Payload.sync_response currentTime playing videoId⟩])

/-- Handler `socket.on('screen_share_start')`, lines 136-139. -/
def screenShareStart (sv : Server) (c : String) (roomId sharerName : Option String) :
    Server × List Emission :=
  ({ sv with data := setAt sv.data c { sv.data c with isSharing := some true } },
   [⟨Target.others c roomId, Payload.screen_share_available c sharerName⟩])

/-- Handler `socket.on('screen_share_stop')`, lines 140-143. -/
def screenShareStop (sv : Server) (c : String) (roomId : Option String) :
    Server × List Emission :=
  ({ sv with data := setAt sv.data c { sv.data c with isSharing := some false } },
   [⟨Target.others c roomId, Payload.screen_share_ended⟩])

/-- Handler `socket.on('webrtc_request')`, line 144. -/
def webrtcRequest (sv : Server) (c : String) (targetSocketId : Option String) :
    Server × List Emission :=
  (sv, [⟨Target.room targetSocketId, Payload.webrtc_request c⟩])

/-- Handler `socket.on('webrtc_offer')`, line 145. -/
def webrtcOffer (sv : Server) (c : String) (targetSocketId : Option String) (offer : Val) :
    Server × List Emission :=
  (sv, [⟨Target.room targetSocketId, Payload.webrtc_offer c offer⟩])

/-- Handler `socket.on('webrtc_answer')`, line 146. -/
def webrtcAnswer (sv : Server) (c : String) (targetSocketId : Option String) (answer : Val) :
    Server × List Emission :=
  (sv, [⟨Target.room targetSocketId, Payload.webrtc_answer c answer⟩])

/-- Handler `socket.on('webrtc_ice')`, line 147. -/
def webrtcIce (sv : Server) (c : String) (targetSocketId : Option String) (candidate : Val) :
    Server × List Emission :=
  (sv, [⟨Target.room targetSocketId, Payload.webrtc_ice c candidate⟩])

/-- Handler `socket.on('disconnect')`, lines 150-158. socket.io has already
taken the connection out of every room when the handler runs. -/
def disconnect (sv : Server) (c : String) : Server × List Emission :=
  let d := sv.data c
  let sv0 : Server := { sv with live := setAt sv.live c false, joined := setAt sv.joined c [] }
  if truthy d.roomId then
    let key := propKey d.roomId
    let roster := ((sv.roomUsers key).getD []).filter (fun u => u.socketId != c)
    ({ sv0 with roomUsers := setAt sv.roomUsers key (some roster) },
     [⟨Target.room d.roomId, Payload.room_users roster⟩,
      ⟨Target.others c d.roomId, Payload.user_left d.username⟩]
     ++ (if d.isSharing = some true then [⟨Target.others c d.roomId, Payload.screen_share_ended⟩]
         else []))
  else (sv0, [])

/-! ## Event loop -/

/-- Client-to-server events with their payloads. -/
inductive ClientEvent where
  | join_room (roomId userId username avatar_color : Option String)
  | send_message (roomId : Option String) (props : List (String × Val))
  | typing (roomId username : Option String)
  | stop_typing (roomId : Option String)
  | video_change (roomId : Option String) (video : Option Video)
  | playback_event (roomId : Option String) (state : Option String) (currentTime : Option ℚ)
  | request_sync (roomId : Option String)
  | sync_response (toSocketId : Option String) (currentTime : Option ℚ)
      (playing : Option Bool) (videoId : Option String)
  | screen_share_start (roomId sharerName : Option String)
  | screen_share_stop (roomId : Option String)
  | webrtc_request (targetSocketId : Option String)
  | webrtc_offer (targetSocketId : Option String) (offer : Val)
  | webrtc_answer (targetSocketId : Option String) (answer : Val)
  | webrtc_ice (targetSocketId : Option String) (candidate : Val)
deriving DecidableEq

/-- Dispatch of a client event received on connection `c` to its handler. -/
def handle (sv : Server) (c : String) (env : Env) : ClientEvent → Server × List Emission
  | ClientEvent.join_room r u n a => joinRoom sv c r u n a
  | ClientEvent.send_message r ps => sendMessage sv env r ps
  | ClientEvent.typing r n => typing sv c r n
  | ClientEvent.stop_typing r => stopTyping sv c r
  | ClientEvent.video_change r v => videoChange sv c env r v
  | ClientEvent.playback_event r s t => playbackEvent sv c env r s t
  | ClientEvent.request_sync r => requestSync sv c r
  | ClientEvent.sync_response t ct p v => syncResponse sv c t ct p v
  | ClientEvent.screen_share_start r n => screenShareStart sv c r n
  | ClientEvent.screen_share_stop r => screenShareStop sv c r
  | ClientEvent.webrtc_request t => webrtcRequest sv c t
  | ClientEvent.webrtc_offer t o => webrtcOffer sv c t o
  | ClientEvent.webrtc_answer t a => webrtcAnswer sv c t a
  | ClientEvent.webrtc_ice t x => webrtcIce sv c t x

/-- What the transport hands to the process. -/
inductive Input where
  /-- A new connection with id `c` is accepted. -/
  | connect (c : String)
  /-- Connection `c` sends an event; `env` are the readings of its handler. -/
  | event (c : String) (env : Env) (ev : ClientEvent)
  /-- The transport closes connection `c`. -/
  | disconnect (c : String)
deriving DecidableEq

/-- One turn of the event loop. Only a connected socket sends events or is
disconnected; a new connection starts in no room but its own, with empty
`socket.data`. -/
def step (sv : Server) : Input → Server × List Emission
  | Input.connect c =>
      if sv.live c then (sv, [])
      else ({ sv with
              live := setAt sv.live c true
              joined := setAt sv.joined c []
              data := setAt sv.data c SocketData.empty }, [])
  | Input.event c env ev => if sv.live c then handle sv c env ev else (sv, [])
  | Input.disconnect c => if sv.live c then disconnect sv c else (sv, [])

/-- Inputs handled to completion one after the other, in arrival order; the
result is the final state and, per input, the emissions of its turn. -/
def run (sv : Server) : List Input → Server × List (List Emission)
  | [] => (sv, [])
  | i :: rest =>
      let r := step sv i
      let r2 := run r.1 rest
      (r2.1, r.2 :: r2.2)

/-- States the process can be in: those the event loop reaches from start-up. -/
def Reachable (sv : Server) : Prop := ∃ inputs : List Input, (run Server.init inputs).1 = sv

/-! ## Event sequences used in the statements -/

/-- One `join_room` as a connection sends it: the connection, the readings of
its turn and the identity fields of the payload. -/
structure Join where
  c : String
  env : Env
  userId : Option String
  username : Option String
  avatar_color : Option String

/-- Roster entry that `join_room` pushes for a join. -/
def Join.entry (j : Join) : User := ⟨j.c, j.userId, j.username, j.avatar_color⟩

/-- The join as an input of the event loop, addressed to room `R`. -/
def Join.input (R : Option String) (j : Join) : Input :=
  Input.event j.c j.env (ClientEvent.join_room R j.userId j.username j.avatar_color)

/-- One `playback_event` as a connection sends it. -/
structure Playback where
  c : String
  env : Env
  state : Option String
  currentTime : Option ℚ

/-- The playback event as an input of the event loop, addressed to room `R`. -/
def Playback.input (R : Option String) (p : Playback) : Input :=
  Input.event p.c p.env (ClientEvent.playback_event R p.state p.currentTime)

/-- The relay of a playback event: same `state` and `currentTime`, with
`serverTs` the second clock reading, emitted with `socket.to(R)`. -/
def Playback.relay (R : Option String) (p : Playback) : Emission :=
  ⟨Target.others p.c R, Payload.playback_event p.state p.currentTime p.env.now2⟩

/-- Inputs whose reported playback position, if any, is a number that is not
negative: a `playback_event` or `sync_response` qualifies when its
`currentTime` is present and `≥ 0`; every other input qualifies. -/
def reportsNonneg : Input → Bool
  | Input.event _ _ (ClientEvent.playback_event _ _ t) =>
      match t with
      | some q => decide (0 ≤ q)
      | none => false
  | Input.event _ _ (ClientEvent.sync_response _ t _ _) =>
      match t with
      | some q => decide (0 ≤ q)
      | none => false
  | _ => true

/-- Inputs that are none of the three events writing `roomState`
(`video_change`, `playback_event`, `sync_response`). -/
def keepsCache : Input → Bool
  | Input.event _ _ (ClientEvent.video_change _ _) => false
  | Input.event _ _ (ClientEvent.playback_event _ _ _) => false
  | Input.event _ _ (ClientEvent.sync_response _ _ _ _) => false
  | _ => true

/-! ## Client (`VideoPlayer.jsx`, `Chat.jsx`) -/

/-- What the sync handlers of `VideoPlayer.jsx` read and write: the source
type in `typeRef`, whether the player object exists, the position and play
state of the media, the React flags `playing` and `buffering`, and the
`isSyncing` guard. -/
structure Player where
  sourceType : Option String
  ready : Bool
  position : ℚ
  mediaPlaying : Bool
  playing : Bool
  buffering : Bool
  isSyncing : Bool
deriving DecidableEq

/-- Constant `DRIFT_SEC = 1.5` of `VideoPlayer.jsx`. -/
def DRIFT_SEC : ℚ := 3 / 2

/-- Function `applySync(state, targetTime)`, VideoPlayer.jsx lines 172-197, as
far as it acts at once (the timer that clears `isSyncing` later is left out).
For a YouTube or native source with a player: set the guard, seek when the
position is more than `DRIFT_SEC` away from the target, then play, pause or
flag buffering according to `state`. Any other source, or no player: nothing. -/
def applySync (state : String) (targetTime : Option ℚ) (pl : Player) : Player :=
  if pl.sourceType = some "youtube" ∨ pl.sourceType = some "upload"
      ∨ pl.sourceType = some "direct" then
    if pl.ready then
      let pl1 : Player := { pl with isSyncing := true }
      let pl2 : Player :=
        match targetTime with
        | some t => if abs (pl1.position - t) > DRIFT_SEC then { pl1 with position := t } else pl1
        | none => pl1
      let pl3 : Player :=
        if state = "playing" then
          { pl2 with mediaPlaying := true, playing := true, buffering := false }
        else pl2
      let pl4 : Player :=
        if state = "paused" then { pl3 with mediaPlaying := false, playing := false } else pl3
      if state = "buffering" then { pl4 with buffering := true } else pl4
    else pl
  else pl

/-- Handler `onSyncResponse`, VideoPlayer.jsx lines 221-225; `video` is the
currently selected video of the component. -/
def onSyncResponse (video : Option Video) (currentTime : Option ℚ) (p : Option Bool)
    (videoId : Option String) (pl : Player) : Player :=
  if videoId != video.bind (fun v => v.id) then pl
  else applySync (if p = some true then "playing" else "paused") currentTime pl

/-- The `id` of a chat message object (`undefined` when it has none). -/
def msgId (m : List (String × Val)) : Option Val := getProp "id" m

/-- Handler `onMsg` of Chat.jsx, lines 32-38, on the message list: the updater
passed to `setMessages`. -/
def onMsg (prev : List (List (String × Val))) (msg : List (String × Val)) :
    List (List (String × Val)) :=
  if prev.any (fun m => msgId m == msgId msg) then prev else prev ++ [msg]

/-! ## Video streaming (`server.js`, `app.get('/stream/:filename')`) -/

/-- Range branch of the `/stream` route, lines 36-47, after the header has
been split at the dash: `start` is `parseInt(rawStart, 10)`, `rawEnd` is the
number after the dash, `none` when nothing follows the dash. The result is
the served `start`, `end` and `Content-Length`. -/
def streamRange (size start : Int) (rawEnd : Option Int) : Int × Int × Int :=
  let stop : Int :=
    match rawEnd with
    | some e => e
    | none => min (start + 4 * 1024 * 1024 - 1) (size - 1)
  (start, stop, stop - start + 1)

/-! # Theorems -/

/-! ## Basic facts about the helpers -/

theorem setAt_same {α : Type} (m : String → α) (k : String) (v : α) : setAt m k v k = v := by
  simp [setAt]

theorem setAt_other {α : Type} (m : String → α) (k k' : String) (v : α) (h : k' ≠ k) :
    setAt m k v k' = m k' := by
  simp [setAt, h]

/-- Rejoin replacement keeps user ids pairwise distinct. -/
theorem nodup_replace (l : List User) (u : User)
    (h : (l.map User.userId).Nodup) :
    ((l.filter (fun x => x.userId != u.userId) ++ [u]).map User.userId).Nodup := by
  rw [List.map_append, List.nodup_append]
  refine ⟨?_, by simp, ?_⟩
  · exact h.sublist ((List.filter_sublist l).map User.userId)
  · intro a ha hb
    simp only [List.map_cons, List.map_nil, List.mem_singleton] at hb
    obtain ⟨x, hx, rfl⟩ := List.mem_map.1 ha
    have hx2 := (List.mem_filter.1 hx).2
    simp [hb] at hx2

/-- Removal by socket id keeps user ids pairwise distinct. -/
theorem nodup_remove (l : List User) (c : String)
    (h : (l.map User.userId).Nodup) :
    ((l.filter (fun x => x.socketId != c)).map User.userId).Nodup :=
  h.sublist ((List.filter_sublist l).map User.userId)

/-- No handler other than `join_room` touches `roomUsers`. -/
theorem handle_roomUsers (sv : Server) (c : String) (env : Env) (ev : ClientEvent)
    (h : ∀ r u n a, ev ≠ ClientEvent.join_room r u n a) :
    (handle sv c env ev).1.roomUsers = sv.roomUsers := by
  cases ev with
  | join_room r u n a => exact absurd rfl (h r u n a)
  | sync_response t ct p v =>
    simp only [handle, syncResponse]
    split <;> rfl
  | _ => rfl

/-- One turn of the event loop keeps user ids pairwise distinct in every roster. -/
theorem step_unique_users (sv : Server) (i : Input)
    (h : ∀ r roster, sv.roomUsers r = some roster → (roster.map User.userId).Nodup) :
    ∀ r roster, (step sv i).1.roomUsers r = some roster → (roster.map User.userId).Nodup := by
  intro r roster hr
  cases i with
  | connect c =>
    simp only [step] at hr
    split at hr <;> exact h r roster hr
  | disconnect c =>
    simp only [step] at hr
    split at hr
    · simp only [disconnect] at hr
      split at hr
      · dsimp only at hr
        by_cases hk : r = propKey (sv.data c).roomId
        · subst hk
          simp only [setAt_same, Option.some.injEq] at hr
          subst hr
          apply nodup_remove
          cases hprev : sv.roomUsers (propKey (sv.data c).roomId) with
          | none => simp
          | some l => simpa using h _ l hprev
        · rw [setAt_other _ _ _ _ hk] at hr
          exact h r roster hr
      · exact h r roster hr
    · exact h r roster hr
  | event c env ev =>
    simp only [step] at hr
    split at hr
    · by_cases hj : ∃ R u n a, ev = ClientEvent.join_room R u n a
      · obtain ⟨R, u, n, a, rfl⟩ := hj
        simp only [handle, joinRoom] at hr
        by_cases hk : r = propKey R
        · subst hk
          simp only [setAt_same, Option.some.injEq] at hr
          subst hr
          apply nodup_replace _ ⟨c, u, n, a⟩
          cases hprev : sv.roomUsers (propKey R) with
          | none => simp
          | some l => simpa using h _ l hprev
        · rw [setAt_other _ _ _ _ hk] at hr
          exact h r roster hr
      · rw [handle_roomUsers sv c env ev (fun R u n a he => hj ⟨R, u, n, a, he⟩)] at hr
        exact h r roster hr
    · exact h r roster hr

theorem run_append (sv : Server) (xs ys : List Input) :
    run sv (xs ++ ys) =
      ((run (run sv xs).1 ys).1, (run sv xs).2 ++ (run (run sv xs).1 ys).2) := by
  induction xs generalizing sv with
  | nil => simp [run]
  | cons x xs ih => simp [run, ih]

/-- Every roster of a state reached by `run` has pairwise distinct user ids
when the rosters of the starting state have. -/
theorem run_unique_users (inputs : List Input) (sv : Server)
    (h : ∀ r roster, sv.roomUsers r = some roster → (roster.map User.userId).Nodup) :
    ∀ r roster, (run sv inputs).1.roomUsers r = some roster →
      (roster.map User.userId).Nodup := by
  induction inputs generalizing sv with
  | nil => simpa [run] using h
  | cons i rest ih =>
    simp only [run]
    exact ih _ (step_unique_users sv i h)

/-! ## Claims -/

/-- C1: whatever the state before, a `video_change` for room `roomId` whose
video has id `V` leaves the cached playback state of that room with
`videoId = V`, `currentTime = 0` and `playing = false` (and `updatedAt` the
clock reading of the handler). -/
theorem video_change_resets_state (sv : Server) (c : String) (env : Env)
    (roomId : Option String) (V : String) (props : List (String × Val)) :
    (videoChange sv c env roomId (some ⟨some V, props⟩)).1.roomState (propKey roomId)
      = some ⟨some V, some 0, some false, some env.now⟩ := by
  simp [videoChange, setAt]

/-- C2: in every reachable state each roster has at most one entry per user
id; and when a connection `c2` joins room `R` as user `U` (in particular while
another connection of `U` is still in the roster), the roster of `R` afterwards
has exactly one entry for `U`, the one of `c2` with the username and avatar
colour of this join. -/
theorem roster_one_entry_per_user (sv : Server) (hreach : Reachable sv) :
    (∀ r roster, sv.roomUsers r = some roster → (roster.map User.userId).Nodup) ∧
    (∀ (c2 : String) (R U n a : Option String),
      ∃ roster, (joinRoom sv c2 R U n a).1.roomUsers (propKey R) = some roster ∧
        roster.filter (fun u => u.userId == U) = [⟨c2, U, n, a⟩]) := by
  constructor
  · obtain ⟨inputs, rfl⟩ := hreach
    exact run_unique_users inputs Server.init (by simp [Server.init])
  · intro c2 R U n a
    refine ⟨((sv.roomUsers (propKey R)).getD []).filter (fun u => u.userId != U)
      ++ [⟨c2, U, n, a⟩], by simp only [joinRoom, setAt_same], ?_⟩
    rw [List.filter_append, List.filter_filter]
    simp

/-- Witness of C2: connection `A` is in room `R` as user `u`; `B` joins as `u`. -/
theorem roster_one_entry_per_user_witness :
    Reachable (run Server.init
        [Input.connect "A", Input.connect "B",
         Input.event "A" ⟨1, 1, 0, ""⟩
           (ClientEvent.join_room (some "R") (some "u") (some "ann") none)]).1 ∧
      ∃ roster,
        (joinRoom (run Server.init
          [Input.connect "A", Input.connect "B",
           Input.event "A" ⟨1, 1, 0, ""⟩
             (ClientEvent.join_room (some "R") (some "u") (some "ann") none)]).1
          "B" (some "R") (some "u") (some "ann2") (some "red")).1.roomUsers (propKey (some "R"))
          = some roster ∧
        roster.filter (fun x => x.userId == some "u")
          = [⟨"B", some "u", some "ann2", some "red"⟩] :=
  ⟨⟨_, rfl⟩,
   (roster_one_entry_per_user _ ⟨_, rfl⟩).2 "B" (some "R") (some "u") (some "ann2") (some "red")⟩

/-! ### Sequences of joins -/

/-- No client event changes which connections are live. -/
theorem handle_live (sv : Server) (c : String) (env : Env) (ev : ClientEvent) :
    (handle sv c env ev).1.live = sv.live := by
  cases ev with
  | sync_response t ct p v =>
    simp only [handle, syncResponse]
    split <;> rfl
  | _ => rfl

/-- Filtering a roster by a user id none of its entries has changes nothing. -/
theorem filter_fresh_user (l : List User) (U : Option String)
    (h : ∀ u ∈ l, u.userId ≠ U) : l.filter (fun u => u.userId != U) = l := by
  rw [List.filter_eq_self]
  intro u hu
  simpa using h u hu

/-- Roster of room `R` after a run of joins by users not yet in it. -/
theorem run_joins_roster (R : Option String) (js : List Join) (sv : Server)
    (hlive : ∀ j ∈ js, sv.live j.c = true)
    (hfresh : ∀ u ∈ (sv.roomUsers (propKey R)).getD [], ∀ j ∈ js, u.userId ≠ j.userId)
    (huser : (js.map Join.userId).Nodup) :
    ((run sv (js.map (Join.input R))).1.roomUsers (propKey R)).getD []
        = (sv.roomUsers (propKey R)).getD [] ++ js.map Join.entry ∧
      (run sv (js.map (Join.input R))).1.live = sv.live := by
  induction js generalizing sv with
  | nil => simp [run]
  | cons j rest ih =>
    have hj : sv.live j.c = true := hlive j (List.mem_cons_self _ _)
    have hstep : step sv (Join.input R j)
        = joinRoom sv j.c R j.userId j.username j.avatar_color := by
      simp [step, Join.input, hj, handle]
    have hroster : ((joinRoom sv j.c R j.userId j.username j.avatar_color).1.roomUsers
        (propKey R)).getD [] = (sv.roomUsers (propKey R)).getD [] ++ [j.entry] := by
      simp only [joinRoom, setAt_same, Option.getD_some, Join.entry]
      rw [filter_fresh_user _ _ (fun u hu => hfresh u hu j (List.mem_cons_self _ _))]
    have hl : (joinRoom sv j.c R j.userId j.username j.avatar_color).1.live = sv.live := rfl
    rw [List.map_cons, List.nodup_cons] at huser
    simp only [List.map_cons, run, hstep]
    have := ih (joinRoom sv j.c R j.userId j.username j.avatar_color).1
      (fun k hk => by rw [hl]; exact hlive k (List.mem_cons_of_mem _ hk))
      (by
        intro u hu k hk
        rw [hroster, List.mem_append] at hu
        rcases hu with hu | hu
        · exact hfresh u hu k (List.mem_cons_of_mem _ hk)
        · simp only [List.mem_singleton] at hu
          subst hu
          intro heq
          exact huser.1 (List.mem_map.2 ⟨k, hk, heq.symm⟩))
      huser.2
    rw [this.1, this.2, hroster, hl]
    simp

/-- Counterexample to C3 as stated: two distinct connections `A` and `B` join
the empty room `R`, both as user `u`; the roster broadcast by the second join
has one participant, not two. -/
theorem join_roster_count_counterexample :
    (run Server.init
      [Input.connect "A", Input.connect "B",
       Join.input (some "R") ⟨"A", ⟨1, 1, 0, ""⟩, some "u", some "ann", none⟩,
       Join.input (some "R") ⟨"B", ⟨2, 2, 0, ""⟩, some "u", some "ann", none⟩]).2.getLast?
      = some [⟨Target.room (some "R"),
                Payload.room_users [⟨"B", some "u", some "ann", none⟩]⟩,
              ⟨Target.others "B" (some "R"), Payload.user_joined (some "ann")⟩] ∧
    [(⟨"B", some "u", some "ann", none⟩ : User)].length ≠ 2 := by
  constructor
  · rfl
  · decide

/-- C3 (amended): `N ≥ 1` joins into the same initially empty room `R`, sent by
live connections under pairwise distinct user ids; the `room_users` roster
that the last join broadcasts to the room has exactly `N` entries, the k-th
being the socket id, user id, username and avatar colour of the k-th join. -/
theorem join_roster_distinct_users (sv : Server) (R : Option String) (js : List Join)
    (hne : js ≠ [])
    (hempty : (sv.roomUsers (propKey R)).getD [] = [])
    (hlive : ∀ j ∈ js, sv.live j.c = true)
    (huser : (js.map Join.userId).Nodup) :
    (∃ rest, (run sv (js.map (Join.input R))).2.getLast?
        = some (⟨Target.room R, Payload.room_users (js.map Join.entry)⟩ :: rest)) ∧
      (js.map Join.entry).length = js.length := by
  refine ⟨?_, by simp⟩
  obtain ⟨ini, last, rfl⟩ : ∃ ini last, js = ini ++ [last] :=
    ⟨js.dropLast, js.getLast hne, (List.dropLast_append_getLast hne).symm⟩
  rw [List.map_append, List.nodup_append] at huser
  have hpre := run_joins_roster R ini sv
    (fun j hj => hlive j (List.mem_append_left _ hj))
    (by rw [hempty]; intro u hu; simp at hu)
    huser.1
  rw [hempty, List.nil_append] at hpre
  have hl : (run sv (ini.map (Join.input R))).1.live last.c = true := by
    rw [hpre.2]; exact hlive last (by simp)
  have hfilter : (ini.map Join.entry).filter (fun u => u.userId != last.userId)
      = ini.map Join.entry := by
    apply filter_fresh_user
    intro u hu
    obtain ⟨j, hj, rfl⟩ := List.mem_map.1 hu
    intro heq
    exact huser.2.2 (List.mem_map.2 ⟨j, hj, rfl⟩) (by simp [← heq, Join.entry])
  simp only [List.map_append, List.map_cons, List.map_nil, run_append, run,
    List.getLast?_append, List.getLast?_singleton, Option.or_some]
  simp only [step, Join.input, hl, if_true, handle, joinRoom, hpre.1, hfilter]
  exact ⟨_, rfl⟩

/-- Witness of C3 (amended): `A` joins as `u1`, then `B` as `u2`. -/
theorem join_roster_distinct_users_witness :
    (∃ rest, (run (run Server.init [Input.connect "A", Input.connect "B"]).1
        ([⟨"A", ⟨1, 1, 0, ""⟩, some "u1", some "ann", none⟩,
          ⟨"B", ⟨2, 2, 0, ""⟩, some "u2", some "bob", some "red"⟩].map
            (Join.input (some "R")))).2.getLast?
        = some (⟨Target.room (some "R"), Payload.room_users
            (([⟨"A", ⟨1, 1, 0, ""⟩, some "u1", some "ann", none⟩,
               ⟨"B", ⟨2, 2, 0, ""⟩, some "u2", some "bob", some "red"⟩] : List Join).map
              Join.entry)⟩ :: rest)) ∧
      (([⟨"A", ⟨1, 1, 0, ""⟩, some "u1", some "ann", none⟩,
         ⟨"B", ⟨2, 2, 0, ""⟩, some "u2", some "bob", some "red"⟩] : List Join).map
          Join.entry).length = 2 :=
  join_roster_distinct_users (run Server.init [Input.connect "A", Input.connect "B"]).1
    (some "R") _ (by simp) (by rfl)
    (by
      intro j hj
      simp only [List.mem_cons, List.mem_singleton, List.not_mem_nil, or_false] at hj
      rcases hj with rfl | rfl <;> rfl)
    (by decide)

/-! ### Playback events -/

/-- Emissions of a run of playback events sent by live connections: one relay
per event, in arrival order. -/
theorem run_playback_relays (R : Option String) (ps : List Playback) (sv : Server)
    (hlive : ∀ p ∈ ps, sv.live p.c = true) :
    (run sv (ps.map (Playback.input R))).2 = ps.map (fun p => [p.relay R]) ∧
      (run sv (ps.map (Playback.input R))).1.live = sv.live := by
  induction ps generalizing sv with
  | nil => simp [run]
  | cons p rest ih =>
    have hp : sv.live p.c = true := hlive p (List.mem_cons_self _ _)
    have hstep : step sv (Playback.input R p)
        = playbackEvent sv p.c p.env R p.state p.currentTime := by
      simp [step, Playback.input, hp, handle]
    have hl : (playbackEvent sv p.c p.env R p.state p.currentTime).1.live = sv.live := rfl
    have := ih (playbackEvent sv p.c p.env R p.state p.currentTime).1
      (fun q hq => by rw [hl]; exact hlive q (List.mem_cons_of_mem _ hq))
    simp only [List.map_cons, run, hstep, this.1, this.2, hl]
    simp [playbackEvent, Playback.relay]

/-- C4: last write wins. After a non-empty sequence of `playback_event`s for
room `R`, sent by live connections and handled in arrival order, the cached
state of `R` has the `currentTime` of the last event, `playing` equal to
whether the last event's `state` is `'playing'`, and `updatedAt` equal to the
clock reading taken when the last event was handled; and every event of the
sequence was relayed with its own `state` and `currentTime` and a `serverTs`
clock reading. -/
theorem playback_last_write_wins (sv : Server) (R : Option String) (ps : List Playback)
    (hne : ps ≠ [])
    (hlive : ∀ p ∈ ps, sv.live p.c = true) :
    (∃ st, (run sv (ps.map (Playback.input R))).1.roomState (propKey R) = some st ∧
        st.currentTime = (ps.getLast hne).currentTime ∧
        st.playing = some ((ps.getLast hne).state == some "playing") ∧
        st.updatedAt = some (ps.getLast hne).env.now) ∧
      (run sv (ps.map (Playback.input R))).2 = ps.map (fun p => [p.relay R]) := by
  refine ⟨?_, (run_playback_relays R ps sv hlive).1⟩
  have hsplit := List.dropLast_append_getLast hne
  generalize ps.getLast hne = last at hsplit ⊢
  generalize ps.dropLast = ini at hsplit
  subst hsplit
  have hpre := run_playback_relays R ini sv (fun p hp => hlive p (List.mem_append_left _ hp))
  have hl : (run sv (ini.map (Playback.input R))).1.live last.c = true := by
    rw [hpre.2]; exact hlive last (by simp)
  simp only [List.map_append, List.map_cons, List.map_nil, run_append, run]
  simp only [step, Playback.input, hl, if_true, handle, playbackEvent, setAt_same]
  exact ⟨_, rfl, rfl, rfl, rfl⟩

/-- Witness of C4: `A` reports playing at 12.5, then `B` reports paused at 3. -/
theorem playback_last_write_wins_witness :
    (∃ st, (run (run Server.init [Input.connect "A", Input.connect "B"]).1
          ([⟨"A", ⟨100, 101, 0, ""⟩, some "playing", some (25 / 2)⟩,
            ⟨"B", ⟨200, 201, 0, ""⟩, some "paused", some 3⟩].map
              (Playback.input (some "R")))).1.roomState (propKey (some "R")) = some st ∧
        st.currentTime = some 3 ∧
        st.playing = some ((some "paused" : Option String) == some "playing") ∧
        st.updatedAt = some 200) ∧
      (run (run Server.init [Input.connect "A", Input.connect "B"]).1
          ([⟨"A", ⟨100, 101, 0, ""⟩, some "playing", some (25 / 2)⟩,
            ⟨"B", ⟨200, 201, 0, ""⟩, some "paused", some 3⟩].map
              (Playback.input (some "R")))).2
        = ([⟨"A", ⟨100, 101, 0, ""⟩, some "playing", some (25 / 2)⟩,
            ⟨"B", ⟨200, 201, 0, ""⟩, some "paused", some 3⟩] : List Playback).map
            (fun p => [p.relay (some "R")]) :=
  playback_last_write_wins (run Server.init [Input.connect "A", Input.connect "B"]).1
    (some "R")
    [⟨"A", ⟨100, 101, 0, ""⟩, some "playing", some (25 / 2)⟩,
     ⟨"B", ⟨200, 201, 0, ""⟩, some "paused", some 3⟩]
    (by simp)
    (by
      intro p hp
      simp only [List.mem_cons, List.mem_singleton, List.not_mem_nil, or_false] at hp
      rcases hp with rfl | rfl <;> rfl)

/-- C5, the handler at the failing input: room `R` is cached as playing (after
`playback_event` with state `'playing'`); a `playback_event` with state
`'buffering'` leaves the cached `playing` at `false`. -/
theorem buffering_clears_playing :
    ((run Server.init
        [Input.connect "A",
         Input.event "A" ⟨100, 100, 0, ""⟩
           (ClientEvent.playback_event (some "R") (some "playing") (some 10))]).1.roomState "R"
        = some ⟨none, some 10, some true, some 100⟩) ∧
      ((run Server.init
        [Input.connect "A",
         Input.event "A" ⟨100, 100, 0, ""⟩
           (ClientEvent.playback_event (some "R") (some "playing") (some 10)),
         Input.event "A" ⟨200, 200, 0, ""⟩
           (ClientEvent.playback_event (some "R") (some "buffering") (some 10))]).1.roomState "R"
        = some ⟨none, some 10, some false, some 200⟩) := by
  constructor <;> rfl

/-- C6, the handlers at the failing input: `A` reports `currentTime = 10` for
room `R` at clock 1000; `B`, a member of `R`, then answers a sync request with
`currentTime = 5`. The cache now holds `currentTime = 5` under the unchanged
`updatedAt = 1000`, and that is the `initial_sync` payload the next joiner `C`
gets. -/
theorem sync_response_rewinds_cache :
    ((run Server.init
        [Input.connect "A", Input.connect "B", Input.connect "C",
         Input.event "A" ⟨1, 1, 0, ""⟩ (ClientEvent.join_room (some "R") (some "a") none none),
         Input.event "B" ⟨2, 2, 0, ""⟩ (ClientEvent.join_room (some "R") (some "b") none none),
         Input.event "A" ⟨1000, 1000, 0, ""⟩
           (ClientEvent.playback_event (some "R") (some "playing") (some 10)),
         Input.event "B" ⟨2000, 2000, 0, ""⟩
           (ClientEvent.sync_response (some "A") (some 5) (some true) (some "v1"))]).1.roomState "R"
        = some ⟨some "v1", some 5, some true, some 1000⟩) ∧
      ((step (run Server.init
        [Input.connect "A", Input.connect "B", Input.connect "C",
         Input.event "A" ⟨1, 1, 0, ""⟩ (ClientEvent.join_room (some "R") (some "a") none none),
         Input.event "B" ⟨2, 2, 0, ""⟩ (ClientEvent.join_room (some "R") (some "b") none none),
         Input.event "A" ⟨1000, 1000, 0, ""⟩
           (ClientEvent.playback_event (some "R") (some "playing") (some 10)),
         Input.event "B" ⟨2000, 2000, 0, ""⟩
           (ClientEvent.sync_response (some "A") (some 5) (some true) (some "v1"))]).1
        (Input.event "C" ⟨3000, 3000, 0, ""⟩
          (ClientEvent.join_room (some "R") (some "c") none none))).2.getLast?
        = some ⟨Target.self "C",
            Payload.initial_sync ⟨some "v1", some 5, some true, some 1000⟩⟩) ∧
      ¬ ((10 : ℚ) ≤ 5) := by
  refine ⟨by rfl, by rfl, by norm_num⟩

/-! ### Delivery -/

/-- C7: when a live connection `c` joins room `R`, an `initial_sync` is
emitted exactly when `R` has a cached playback state; its payload is that
cached state, unchanged by the join, and the connections it reaches are `c`
and nobody else. -/
theorem join_initial_sync (sv : Server) (c : String) (R U n a : Option String)
    (hlive : sv.live c = true) :
    ((∃ e ∈ (joinRoom sv c R U n a).2, ∃ st, e.payload = Payload.initial_sync st)
        ↔ (sv.roomState (propKey R)).isSome = true) ∧
      (∀ e ∈ (joinRoom sv c R U n a).2, ∀ st, e.payload = Payload.initial_sync st →
        sv.roomState (propKey R) = some st ∧
        (joinRoom sv c R U n a).1.roomState (propKey R) = some st ∧
        ∀ c', reaches (joinRoom sv c R U n a).1 e.target c' = true ↔ c' = c) := by
  cases hst : sv.roomState (propKey R) with
  | none => simp [joinRoom, hst]
  | some st0 =>
    simp only [joinRoom, hst, Option.isSome_some, iff_true]
    refine ⟨⟨⟨Target.self c, Payload.initial_sync st0⟩, by simp, st0, rfl⟩, ?_⟩
    intro e he st hp
    simp only [List.cons_append, List.nil_append, List.mem_cons, List.mem_singleton,
      List.not_mem_nil, or_false] at he
    rcases he with rfl | rfl | rfl
    · simp at hp
    · simp at hp
    · simp only [Payload.initial_sync.injEq] at hp
      subst hp
      refine ⟨rfl, rfl, ?_⟩
      intro c'
      simp only [reaches, Bool.and_eq_true, beq_iff_eq]
      constructor
      · exact fun h => h.2
      · rintro rfl
        exact ⟨hlive, rfl⟩

/-- Witness of C7: room `R` has a cached state when `B` joins it. -/
theorem join_initial_sync_witness :
    ((∃ e ∈ (joinRoom (run Server.init
          [Input.connect "A", Input.connect "B",
           Input.event "A" ⟨100, 100, 0, ""⟩
             (ClientEvent.video_change (some "R") (some ⟨some "v1", []⟩))]).1
          "B" (some "R") (some "b") none none).2, ∃ st, e.payload = Payload.initial_sync st)
        ↔ ((run Server.init
          [Input.connect "A", Input.connect "B",
           Input.event "A" ⟨100, 100, 0, ""⟩
             (ClientEvent.video_change (some "R") (some ⟨some "v1", []⟩))]).1.roomState
            (propKey (some "R"))).isSome = true) ∧
      (∀ e ∈ (joinRoom (run Server.init
          [Input.connect "A", Input.connect "B",
           Input.event "A" ⟨100, 100, 0, ""⟩
             (ClientEvent.video_change (some "R") (some ⟨some "v1", []⟩))]).1
          "B" (some "R") (some "b") none none).2, ∀ st, e.payload = Payload.initial_sync st →
        (run Server.init
          [Input.connect "A", Input.connect "B",
           Input.event "A" ⟨100, 100, 0, ""⟩
             (ClientEvent.video_change (some "R") (some ⟨some "v1", []⟩))]).1.roomState
            (propKey (some "R")) = some st ∧
        (joinRoom (run Server.init
          [Input.connect "A", Input.connect "B",
           Input.event "A" ⟨100, 100, 0, ""⟩
             (ClientEvent.video_change (some "R") (some ⟨some "v1", []⟩))]).1
          "B" (some "R") (some "b") none none).1.roomState (propKey (some "R")) = some st ∧
        ∀ c', reaches (joinRoom (run Server.init
          [Input.connect "A", Input.connect "B",
           Input.event "A" ⟨100, 100, 0, ""⟩
             (ClientEvent.video_change (some "R") (some ⟨some "v1", []⟩))]).1
          "B" (some "R") (some "b") none none).1 e.target c' = true ↔ c' = "B") :=
  join_initial_sync _ "B" (some "R") (some "b") none none (by rfl)

/-- The sender of a `socket.to(r)` emission is never among its receivers: a
live connection is in the room named by its own id, and a closed one is in
no room. -/
theorem sender_excepted (sv : Server) (c : String) (r : Option String) :
    (inRoom sv c r && !inRoom sv c (some c)) = false := by
  cases h : sv.live c <;> simp [inRoom, h]

/-- Who receives the relay of a `video_change`. -/
theorem received_videoChange (sv : Server) (c : String) (env : Env) (r : Option String)
    (video : Option Video) (c' : String) :
    received (videoChange sv c env r video).1 (videoChange sv c env r video).2 c'
      = if inRoom sv c' r && !inRoom sv c' (some c)
        then [⟨Target.others c r, Payload.video_change video⟩] else [] := by
  simp only [received, videoChange, List.filter_cons, List.filter_nil, reaches, inRoom]

/-- Who receives the relay of a `playback_event`. -/
theorem received_playbackEvent (sv : Server) (c : String) (env : Env) (r : Option String)
    (state : Option String) (t : Option ℚ) (c' : String) :
    received (playbackEvent sv c env r state t).1 (playbackEvent sv c env r state t).2 c'
      = if inRoom sv c' r && !inRoom sv c' (some c)
        then [⟨Target.others c r, Payload.playback_event state t env.now2⟩] else [] := by
  simp only [received, playbackEvent, List.filter_cons, List.filter_nil, reaches, inRoom]

/-- Counterexample to C8 as stated: `C`, `A` and `Y` are in room `R`, and `Y`
has also sent `join_room` with `roomId` equal to the connection id of `C`. The
`playback_event` that `C` sends for `R` is relayed to `A` but not to `Y`,
although `Y` is a connection in `R` other than `C`. -/
theorem relay_skips_member_counterexample :
    inRoom (run Server.init
        [Input.connect "C", Input.connect "A", Input.connect "Y",
         Join.input (some "R") ⟨"C", ⟨1, 1, 0, ""⟩, some "c", none, none⟩,
         Join.input (some "R") ⟨"A", ⟨2, 2, 0, ""⟩, some "a", none, none⟩,
         Join.input (some "R") ⟨"Y", ⟨3, 3, 0, ""⟩, some "y", none, none⟩,
         Join.input (some "C") ⟨"Y", ⟨4, 4, 0, ""⟩, some "y", none, none⟩]).1
      "Y" (some "R") = true ∧
    "Y" ≠ "C" ∧
    received (run Server.init
        [Input.connect "C", Input.connect "A", Input.connect "Y",
         Join.input (some "R") ⟨"C", ⟨1, 1, 0, ""⟩, some "c", none, none⟩,
         Join.input (some "R") ⟨"A", ⟨2, 2, 0, ""⟩, some "a", none, none⟩,
         Join.input (some "R") ⟨"Y", ⟨3, 3, 0, ""⟩, some "y", none, none⟩,
         Join.input (some "C") ⟨"Y", ⟨4, 4, 0, ""⟩, some "y", none, none⟩]).1
      (step (run Server.init
        [Input.connect "C", Input.connect "A", Input.connect "Y",
         Join.input (some "R") ⟨"C", ⟨1, 1, 0, ""⟩, some "c", none, none⟩,
         Join.input (some "R") ⟨"A", ⟨2, 2, 0, ""⟩, some "a", none, none⟩,
         Join.input (some "R") ⟨"Y", ⟨3, 3, 0, ""⟩, some "y", none, none⟩,
         Join.input (some "C") ⟨"Y", ⟨4, 4, 0, ""⟩, some "y", none, none⟩]).1
        (Input.event "C" ⟨100, 101, 0, ""⟩
          (ClientEvent.playback_event (some "R") (some "playing") (some 10)))).2 "Y" = [] ∧
    received (run Server.init
        [Input.connect "C", Input.connect "A", Input.connect "Y",
         Join.input (some "R") ⟨"C", ⟨1, 1, 0, ""⟩, some "c", none, none⟩,
         Join.input (some "R") ⟨"A", ⟨2, 2, 0, ""⟩, some "a", none, none⟩,
         Join.input (some "R") ⟨"Y", ⟨3, 3, 0, ""⟩, some "y", none, none⟩,
         Join.input (some "C") ⟨"Y", ⟨4, 4, 0, ""⟩, some "y", none, none⟩]).1
      (step (run Server.init
        [Input.connect "C", Input.connect "A", Input.connect "Y",
         Join.input (some "R") ⟨"C", ⟨1, 1, 0, ""⟩, some "c", none, none⟩,
         Join.input (some "R") ⟨"A", ⟨2, 2, 0, ""⟩, some "a", none, none⟩,
         Join.input (some "R") ⟨"Y", ⟨3, 3, 0, ""⟩, some "y", none, none⟩,
         Join.input (some "C") ⟨"Y", ⟨4, 4, 0, ""⟩, some "y", none, none⟩]).1
        (Input.event "C" ⟨100, 101, 0, ""⟩
          (ClientEvent.playback_event (some "R") (some "playing") (some 10)))).2 "A"
      = [⟨Target.others "C" (some "R"),
          Payload.playback_event (some "playing") (some 10) 101⟩] := by
  refine ⟨by rfl, by decide, by rfl, by rfl⟩

/-- C8 (amended): the relay of a `playback_event`, `typing`, `stop_typing` or
`video_change` sent by connection `c` for room `r` is one emission; a
connection receives it exactly when it is a member of room `r` and not a
member of the room named by the id of `c`. The sender `c` never gets it back,
and neither does a connection that has entered the room named by the id of
`c`. -/
theorem relay_excludes_sender (sv : Server) (c : String) (env : Env) (r : Option String) :
    (∀ (state : Option String) (t : Option ℚ) (c' : String),
      received (playbackEvent sv c env r state t).1 (playbackEvent sv c env r state t).2 c'
        = if inRoom sv c' r && !inRoom sv c' (some c)
          then [⟨Target.others c r, Payload.playback_event state t env.now2⟩] else []) ∧
    (∀ (username : Option String) (c' : String),
      received (typing sv c r username).1 (typing sv c r username).2 c'
        = if inRoom sv c' r && !inRoom sv c' (some c)
          then [⟨Target.others c r, Payload.typing username⟩] else []) ∧
    (∀ c' : String,
      received (stopTyping sv c r).1 (stopTyping sv c r).2 c'
        = if inRoom sv c' r && !inRoom sv c' (some c)
          then [⟨Target.others c r, Payload.stop_typing⟩] else []) ∧
    (∀ (video : Option Video) (c' : String),
      received (videoChange sv c env r video).1 (videoChange sv c env r video).2 c'
        = if inRoom sv c' r && !inRoom sv c' (some c)
          then [⟨Target.others c r, Payload.video_change video⟩] else []) ∧
    (∀ (state : Option String) (t : Option ℚ) (username : Option String)
        (video : Option Video),
      received (playbackEvent sv c env r state t).1 (playbackEvent sv c env r state t).2 c = [] ∧
      received (typing sv c r username).1 (typing sv c r username).2 c = [] ∧
      received (stopTyping sv c r).1 (stopTyping sv c r).2 c = [] ∧
      received (videoChange sv c env r video).1 (videoChange sv c env r video).2 c = []) := by
  have hself : (inRoom sv c r && !inRoom sv c (some c)) = false := sender_excepted sv c r
  refine ⟨?_, ?_, ?_, ?_, ?_⟩
  · intro state t c'
    simp only [received, playbackEvent, List.filter_cons, List.filter_nil, reaches, inRoom]
  · intro username c'
    simp only [received, typing, List.filter_cons, List.filter_nil, reaches, inRoom]
  · intro c'
    simp only [received, stopTyping, List.filter_cons, List.filter_nil, reaches, inRoom]
  · intro video c'
    simp only [received, videoChange, List.filter_cons, List.filter_nil, reaches, inRoom]
  · intro state t username video
    refine ⟨?_, ?_, ?_, ?_⟩
    · rw [received_playbackEvent, hself]; rfl
    · have h : received (typing sv c r username).1 (typing sv c r username).2 c
          = if inRoom sv c r && !inRoom sv c (some c)
            then [⟨Target.others c r, Payload.typing username⟩] else [] := by
        simp only [received, typing, List.filter_cons, List.filter_nil, reaches, inRoom]
      rw [h, hself]; rfl
    · have h : received (stopTyping sv c r).1 (stopTyping sv c r).2 c
          = if inRoom sv c r && !inRoom sv c (some c)
            then [⟨Target.others c r, Payload.stop_typing⟩] else [] := by
        simp only [received, stopTyping, List.filter_cons, List.filter_nil, reaches, inRoom]
      rw [h, hself]; rfl
    · rw [received_videoChange, hself]; rfl

/-! ### Chat relay -/

theorem getProp_replace (k k' : String) (v : Val) (ps : List (String × Val)) :
    getProp k' (ps.map (fun p => (p.1, if p.1 = k then v else p.2)))
      = if k' = k then (if hasProp k ps then some v else none) else getProp k' ps := by
  induction ps with
  | nil => simp [getProp, hasProp]
  | cons p rest ih =>
    obtain ⟨pk, pv⟩ := p
    simp only [List.map_cons, getProp, ih]
    by_cases h1 : pk = k
    · subst h1
      by_cases h2 : pk = k'
      · subst h2
        simp [hasProp]
      · have h3 : ¬ k' = pk := fun h => h2 h.symm
        simp [h2, h3]
    · by_cases h3 : pk = k'
      · subst h3
        simp [h1]
      · have hh : hasProp k ((pk, pv) :: rest) = hasProp k rest := by simp [hasProp, h1]
        rw [hh]
        simp [h3]

theorem getProp_push (k k' : String) (v : Val) (ps : List (String × Val))
    (h : hasProp k ps = false) :
    getProp k' (ps ++ [(k, v)]) = if k' = k then some v else getProp k' ps := by
  induction ps with
  | nil =>
    by_cases h2 : k' = k
    · simp [getProp, h2]
    · have h3 : ¬ k = k' := fun h => h2 h.symm
      simp [getProp, h2, h3]
  | cons p rest ih =>
    obtain ⟨pk, pv⟩ := p
    simp only [hasProp, List.any_cons, Bool.or_eq_false_iff, beq_eq_false_iff_ne, ne_eq] at h
    have ih2 := ih (by simpa [hasProp] using h.2)
    by_cases h3 : pk = k'
    · subst h3
      simp [getProp, h.1]
    · simp [getProp, h3, ih2]

/-- Reading a property of `{...o, k: v}`. -/
theorem getProp_setProp (k k' : String) (v : Val) (ps : List (String × Val)) :
    getProp k' (setProp k v ps) = if k' = k then some v else getProp k' ps := by
  unfold setProp
  by_cases h : hasProp k ps = true
  · simp [h, getProp_replace]
  · have h2 : hasProp k ps = false := by simpa using h
    simp [h2, getProp_push]

/-- C9: a `send_message` for room `R` from a connection `A` that has joined
`R` is received exactly once by every member of `R`, `A` included; the
`receive_message` has the room id and every property of the sent message
except that `id` is the server value `Date.now() + Math.random()` and `time`
the server time string, whatever `id` or `time` the client put in. -/
theorem send_message_echo (sv : Server) (A : String) (env : Env) (R : Option String)
    (props : List (String × Val))
    (hA : sv.live A = true) (hR : R ∈ sv.joined A) :
    ∃ out : List (String × Val),
      (∀ c', inRoom sv c' R = true →
        received (sendMessage sv env R props).1 (sendMessage sv env R props).2 c'
          = [⟨Target.room R, Payload.receive_message R out⟩]) ∧
      received (sendMessage sv env R props).1 (sendMessage sv env R props).2 A
        = [⟨Target.room R, Payload.receive_message R out⟩] ∧
      getProp "id" out = some (Val.num ((env.now : ℚ) + env.rand)) ∧
      getProp "time" out = some (Val.str env.iso) ∧
      (∀ k, k ≠ "id" → k ≠ "time" → getProp k out = getProp k props) := by
  refine ⟨setProp "time" (Val.str env.iso)
    (setProp "id" (Val.num ((env.now : ℚ) + env.rand)) props), ?_, ?_, ?_, ?_, ?_⟩
  · intro c' hc
    simp [received, sendMessage, reaches, hc]
  · have hin : inRoom sv A R = true := by
      simp [inRoom, hA, hR]
    simp [received, sendMessage, reaches, hin]
  · rw [getProp_setProp, getProp_setProp]
    simp
  · rw [getProp_setProp]
    simp
  · intro k h1 h2
    rw [getProp_setProp, getProp_setProp]
    simp [h1, h2]

/-- Witness of C9: `A` and `B` are in room `R`; `A` sends a text message that
carries a client-side `id`. -/
theorem send_message_echo_witness :
    ∃ out : List (String × Val),
      (∀ c', inRoom (run Server.init
            [Input.connect "A", Input.connect "B",
             Join.input (some "R") ⟨"A", ⟨1, 1, 0, ""⟩, some "a", none, none⟩,
             Join.input (some "R") ⟨"B", ⟨2, 2, 0, ""⟩, some "b", none, none⟩]).1 c' (some "R")
          = true →
        received (sendMessage (run Server.init
            [Input.connect "A", Input.connect "B",
             Join.input (some "R") ⟨"A", ⟨1, 1, 0, ""⟩, some "a", none, none⟩,
             Join.input (some "R") ⟨"B", ⟨2, 2, 0, ""⟩, some "b", none, none⟩]).1
              ⟨1000, 1000, 1 / 4, "t"⟩ (some "R")
              [("id", Val.str "local"), ("content", Val.str "hello")]).1
          (sendMessage (run Server.init
            [Input.connect "A", Input.connect "B",
             Join.input (some "R") ⟨"A", ⟨1, 1, 0, ""⟩, some "a", none, none⟩,
             Join.input (some "R") ⟨"B", ⟨2, 2, 0, ""⟩, some "b", none, none⟩]).1
              ⟨1000, 1000, 1 / 4, "t"⟩ (some "R")
              [("id", Val.str "local"), ("content", Val.str "hello")]).2 c'
          = [⟨Target.room (some "R"), Payload.receive_message (some "R") out⟩]) ∧
      received (sendMessage (run Server.init
            [Input.connect "A", Input.connect "B",
             Join.input (some "R") ⟨"A", ⟨1, 1, 0, ""⟩, some "a", none, none⟩,
             Join.input (some "R") ⟨"B", ⟨2, 2, 0, ""⟩, some "b", none, none⟩]).1
              ⟨1000, 1000, 1 / 4, "t"⟩ (some "R")
              [("id", Val.str "local"), ("content", Val.str "hello")]).1
          (sendMessage (run Server.init
            [Input.connect "A", Input.connect "B",
             Join.input (some "R") ⟨"A", ⟨1, 1, 0, ""⟩, some "a", none, none⟩,
             Join.input (some "R") ⟨"B", ⟨2, 2, 0, ""⟩, some "b", none, none⟩]).1
              ⟨1000, 1000, 1 / 4, "t"⟩ (some "R")
              [("id", Val.str "local"), ("content", Val.str "hello")]).2 "A"
        = [⟨Target.room (some "R"), Payload.receive_message (some "R") out⟩] ∧
      getProp "id" out = some (Val.num (((1000 : Nat) : ℚ) + 1 / 4)) ∧
      getProp "time" out = some (Val.str "t") ∧
      (∀ k, k ≠ "id" → k ≠ "time" →
        getProp k out = getProp k [("id", Val.str "local"), ("content", Val.str "hello")]) :=
  send_message_echo (run Server.init
      [Input.connect "A", Input.connect "B",
       Join.input (some "R") ⟨"A", ⟨1, 1, 0, ""⟩, some "a", none, none⟩,
       Join.input (some "R") ⟨"B", ⟨2, 2, 0, ""⟩, some "b", none, none⟩]).1
    "A" ⟨1000, 1000, 1 / 4, "t"⟩ (some "R")
    [("id", Val.str "local"), ("content", Val.str "hello")] (by rfl) (by decide)

/-- C10, the handlers at the failing input: `X` and `H` are in room `R`; a
third connection `Y` sends `join_room` with `roomId` equal to the connection id
of `X`. The `sync_response` that `H` then addresses to `X` is received by `Y`
as well as by `X`. -/
theorem sync_response_reaches_other :
    (step (run Server.init
        [Input.connect "X", Input.connect "H", Input.connect "Y",
         Join.input (some "R") ⟨"X", ⟨1, 1, 0, ""⟩, some "x", none, none⟩,
         Join.input (some "R") ⟨"H", ⟨2, 2, 0, ""⟩, some "h", none, none⟩,
         Join.input (some "X") ⟨"Y", ⟨3, 3, 0, ""⟩, some "y", none, none⟩]).1
      (Input.event "H" ⟨4, 4, 0, ""⟩
        (ClientEvent.sync_response (some "X") (some 5) (some true) (some "v1")))).2
      = [⟨Target.room (some "X"), Payload.sync_response (some 5) (some true) (some "v1")⟩] ∧
    received (step (run Server.init
        [Input.connect "X", Input.connect "H", Input.connect "Y",
         Join.input (some "R") ⟨"X", ⟨1, 1, 0, ""⟩, some "x", none, none⟩,
         Join.input (some "R") ⟨"H", ⟨2, 2, 0, ""⟩, some "h", none, none⟩,
         Join.input (some "X") ⟨"Y", ⟨3, 3, 0, ""⟩, some "y", none, none⟩]).1
      (Input.event "H" ⟨4, 4, 0, ""⟩
        (ClientEvent.sync_response (some "X") (some 5) (some true) (some "v1")))).1
      [⟨Target.room (some "X"), Payload.sync_response (some 5) (some true) (some "v1")⟩] "Y"
      = [⟨Target.room (some "X"), Payload.sync_response (some 5) (some true) (some "v1")⟩] ∧
    "Y" ≠ "X" := by
  refine ⟨by rfl, by rfl, by decide⟩

/-! ### Disconnect -/

/-- C11, the handlers at the failing input: `S` and `B` are in room `R`; `S`
announces `screen_share_start` for `R`, which `B` receives, and sends no
`screen_share_stop`; `S` then sends `join_room` for `R` once more on the same
connection, which replaces `socket.data` and with it the sharing flag. The
disconnect of `S` emits `room_users` and `user_left` only: `B`, still in `R`,
receives no `screen_share_ended`. -/
theorem rejoin_drops_share_notice :
    received (run Server.init
        [Input.connect "S", Input.connect "B",
         Join.input (some "R") ⟨"S", ⟨1, 1, 0, ""⟩, some "s", some "sam", none⟩,
         Join.input (some "R") ⟨"B", ⟨2, 2, 0, ""⟩, some "b", some "bob", none⟩]).1
      (step (run Server.init
        [Input.connect "S", Input.connect "B",
         Join.input (some "R") ⟨"S", ⟨1, 1, 0, ""⟩, some "s", some "sam", none⟩,
         Join.input (some "R") ⟨"B", ⟨2, 2, 0, ""⟩, some "b", some "bob", none⟩]).1
        (Input.event "S" ⟨3, 3, 0, ""⟩
          (ClientEvent.screen_share_start (some "R") (some "sam")))).2 "B"
      = [⟨Target.others "S" (some "R"),
          Payload.screen_share_available "S" (some "sam")⟩] ∧
    ((run Server.init
        [Input.connect "S", Input.connect "B",
         Join.input (some "R") ⟨"S", ⟨1, 1, 0, ""⟩, some "s", some "sam", none⟩,
         Join.input (some "R") ⟨"B", ⟨2, 2, 0, ""⟩, some "b", some "bob", none⟩,
         Input.event "S" ⟨3, 3, 0, ""⟩
           (ClientEvent.screen_share_start (some "R") (some "sam"))]).1.data "S").isSharing
      = some true ∧
    ((run Server.init
        [Input.connect "S", Input.connect "B",
         Join.input (some "R") ⟨"S", ⟨1, 1, 0, ""⟩, some "s", some "sam", none⟩,
         Join.input (some "R") ⟨"B", ⟨2, 2, 0, ""⟩, some "b", some "bob", none⟩,
         Input.event "S" ⟨3, 3, 0, ""⟩
           (ClientEvent.screen_share_start (some "R") (some "sam")),
         Join.input (some "R") ⟨"S", ⟨4, 4, 0, ""⟩, some "s", some "sam", none⟩]).1.data
        "S").isSharing = none ∧
    (run Server.init
        [Input.connect "S", Input.connect "B",
         Join.input (some "R") ⟨"S", ⟨1, 1, 0, ""⟩, some "s", some "sam", none⟩,
         Join.input (some "R") ⟨"B", ⟨2, 2, 0, ""⟩, some "b", some "bob", none⟩,
         Input.event "S" ⟨3, 3, 0, ""⟩
           (ClientEvent.screen_share_start (some "R") (some "sam")),
         Join.input (some "R") ⟨"S", ⟨4, 4, 0, ""⟩, some "s", some "sam", none⟩,
         Input.disconnect "S"]).2.getLast?
      = some [⟨Target.room (some "R"),
                Payload.room_users [⟨"B", some "b", some "bob", none⟩]⟩,
              ⟨Target.others "S" (some "R"), Payload.user_left (some "sam")⟩] ∧
    inRoom (run Server.init
        [Input.connect "S", Input.connect "B",
         Join.input (some "R") ⟨"S", ⟨1, 1, 0, ""⟩, some "s", some "sam", none⟩,
         Join.input (some "R") ⟨"B", ⟨2, 2, 0, ""⟩, some "b", some "bob", none⟩,
         Input.event "S" ⟨3, 3, 0, ""⟩
           (ClientEvent.screen_share_start (some "R") (some "sam")),
         Join.input (some "R") ⟨"S", ⟨4, 4, 0, ""⟩, some "s", some "sam", none⟩,
         Input.disconnect "S"]).1 "B" (some "R") = true := by
  refine ⟨by rfl, by rfl, by rfl, by rfl, by rfl⟩

/-- C12, the handlers at the failing input: connection `c` joins room `R1`
and then room `R2`; after its disconnect the roster of `R2` is empty but the
roster of `R1` still holds the entry with socket id `c`. -/
theorem disconnect_leaves_stale_entry :
    (run Server.init
        [Input.connect "c",
         Join.input (some "R1") ⟨"c", ⟨1, 1, 0, ""⟩, some "u", some "ann", none⟩,
         Join.input (some "R2") ⟨"c", ⟨2, 2, 0, ""⟩, some "u", some "ann", none⟩,
         Input.disconnect "c"]).1.roomUsers "R2" = some [] ∧
      (run Server.init
        [Input.connect "c",
         Join.input (some "R1") ⟨"c", ⟨1, 1, 0, ""⟩, some "u", some "ann", none⟩,
         Join.input (some "R2") ⟨"c", ⟨2, 2, 0, ""⟩, some "u", some "ann", none⟩,
         Input.disconnect "c"]).1.roomUsers "R1"
        = some [⟨"c", some "u", some "ann", none⟩] ∧
      (run Server.init
        [Input.connect "c",
         Join.input (some "R1") ⟨"c", ⟨1, 1, 0, ""⟩, some "u", some "ann", none⟩,
         Join.input (some "R2") ⟨"c", ⟨2, 2, 0, ""⟩, some "u", some "ann", none⟩,
         Input.disconnect "c"]).1.live "c" = false := by
  refine ⟨by rfl, by rfl, by rfl⟩

/-- C13: the disconnect handler is a total function of the state and the
connection, it leaves `roomState` as it was, and running it a second time for
the same connection leaves `roomUsers` and `roomState` exactly as the first
run left them; this holds for every state and every connection, also one
whose `socket.data` records no room. -/
theorem disconnect_idempotent (sv : Server) (c : String) :
    (disconnect (disconnect sv c).1 c).1.roomUsers = (disconnect sv c).1.roomUsers ∧
      (disconnect (disconnect sv c).1 c).1.roomState = (disconnect sv c).1.roomState ∧
      (disconnect sv c).1.roomState = sv.roomState := by
  by_cases ht : truthy (sv.data c).roomId = true
  · refine ⟨?_, ?_, ?_⟩
    · funext r
      simp only [disconnect, ht, if_true]
      by_cases hk : r = propKey (sv.data c).roomId
      · subst hk
        simp [setAt, List.filter_filter]
      · simp [setAt, hk]
    · simp [disconnect, ht]
    · simp [disconnect, ht]
  · have hf : truthy (sv.data c).roomId = false := by simpa using ht
    refine ⟨?_, ?_, ?_⟩ <;> simp [disconnect, hf]

/-! ### Payloads with absent fields -/

/-- Counterexample to C14 as stated: connection `A` sends `join_room` with
neither `roomId` nor `userId`. The roster stored under the property name
`"undefined"` goes from absent to one entry for `A`, `room_users` and
`user_joined` are emitted, and `A` itself receives the `room_users`. -/
theorem join_without_ids_counterexample :
    (run Server.init [Input.connect "A"]).1.roomUsers "undefined" = none ∧
      (step (run Server.init [Input.connect "A"]).1
        (Input.event "A" ⟨1, 1, 0, ""⟩
          (ClientEvent.join_room none none (some "ann") none))).1.roomUsers "undefined"
        = some [⟨"A", none, some "ann", none⟩] ∧
      (step (run Server.init [Input.connect "A"]).1
        (Input.event "A" ⟨1, 1, 0, ""⟩
          (ClientEvent.join_room none none (some "ann") none))).2
        = [⟨Target.room none, Payload.room_users [⟨"A", none, some "ann", none⟩]⟩,
           ⟨Target.others "A" none, Payload.user_joined (some "ann")⟩] ∧
      received
        (step (run Server.init [Input.connect "A"]).1
          (Input.event "A" ⟨1, 1, 0, ""⟩
            (ClientEvent.join_room none none (some "ann") none))).1
        (step (run Server.init [Input.connect "A"]).1
          (Input.event "A" ⟨1, 1, 0, ""⟩
            (ClientEvent.join_room none none (some "ann") none))).2 "A"
        = [⟨Target.room none, Payload.room_users [⟨"A", none, some "ann", none⟩]⟩] := by
  refine ⟨by rfl, by rfl, by rfl, by rfl⟩

/-- C14 (amended): a `join_room` without `roomId` is handled with the room id
`undefined`: the connection is pushed on the roster stored under the property
name `"undefined"`, and `room_users` and `user_joined` are emitted to the
socket.io room `undefined`. A `join_room` without `userId` is handled with the
user id `undefined`: the connection replaces the entries of its room's roster
whose user id is `undefined`, and both events are emitted to the room. -/
theorem join_without_ids_registers (sv : Server) (c : String) :
    (∀ userId n a : Option String,
      (joinRoom sv c none userId n a).1.roomUsers "undefined"
        = some (((sv.roomUsers "undefined").getD []).filter (fun x => x.userId != userId)
            ++ [⟨c, userId, n, a⟩]) ∧
      ∃ rest, (joinRoom sv c none userId n a).2
        = ⟨Target.room none, Payload.room_users
            (((sv.roomUsers "undefined").getD []).filter (fun x => x.userId != userId)
              ++ [⟨c, userId, n, a⟩])⟩
          :: ⟨Target.others c none, Payload.user_joined n⟩ :: rest) ∧
    (∀ roomId n a : Option String,
      (joinRoom sv c roomId none n a).1.roomUsers (propKey roomId)
        = some (((sv.roomUsers (propKey roomId)).getD []).filter (fun x => x.userId != none)
            ++ [⟨c, none, n, a⟩]) ∧
      ∃ rest, (joinRoom sv c roomId none n a).2
        = ⟨Target.room roomId, Payload.room_users
            (((sv.roomUsers (propKey roomId)).getD []).filter (fun x => x.userId != none)
              ++ [⟨c, none, n, a⟩])⟩
          :: ⟨Target.others c roomId, Payload.user_joined n⟩ :: rest) := by
  constructor
  · intro userId n a
    exact ⟨by simp [joinRoom, propKey, setAt], ⟨_, rfl⟩⟩
  · intro roomId n a
    exact ⟨by simp [joinRoom, setAt], ⟨_, rfl⟩⟩

/-- Counterexample to C15 as stated: `B` has joined without a room id; `A`
sends a `playback_event` and then a `video_change` without `roomId`. Each
creates or replaces the cached state stored under `"undefined"`, and `B`
receives both relays. -/
theorem event_without_room_counterexample :
    (run Server.init
        [Input.connect "A", Input.connect "B",
         Input.event "B" ⟨1, 1, 0, ""⟩ (ClientEvent.join_room none (some "b") none none)]
      ).1.roomState "undefined" = none ∧
      (run Server.init
        [Input.connect "A", Input.connect "B",
         Input.event "B" ⟨1, 1, 0, ""⟩ (ClientEvent.join_room none (some "b") none none),
         Input.event "A" ⟨100, 101, 0, ""⟩
           (ClientEvent.playback_event none (some "playing") (some 10))]
      ).1.roomState "undefined" = some ⟨none, some 10, some true, some 100⟩ ∧
      (run Server.init
        [Input.connect "A", Input.connect "B",
         Input.event "B" ⟨1, 1, 0, ""⟩ (ClientEvent.join_room none (some "b") none none),
         Input.event "A" ⟨100, 101, 0, ""⟩
           (ClientEvent.playback_event none (some "playing") (some 10)),
         Input.event "A" ⟨200, 201, 0, ""⟩
           (ClientEvent.video_change none (some ⟨some "v2", []⟩))]
      ).1.roomState "undefined" = some ⟨some "v2", some 0, some false, some 200⟩ ∧
      received
        (run Server.init
          [Input.connect "A", Input.connect "B",
           Input.event "B" ⟨1, 1, 0, ""⟩ (ClientEvent.join_room none (some "b") none none)]).1
        ((run Server.init
          [Input.connect "A", Input.connect "B",
           Input.event "B" ⟨1, 1, 0, ""⟩ (ClientEvent.join_room none (some "b") none none),
           Input.event "A" ⟨100, 101, 0, ""⟩
             (ClientEvent.playback_event none (some "playing") (some 10)),
           Input.event "A" ⟨200, 201, 0, ""⟩
             (ClientEvent.video_change none (some ⟨some "v2", []⟩))]).2.drop 3).flatten "B"
        = [⟨Target.others "A" none, Payload.playback_event (some "playing") (some 10) 101⟩,
           ⟨Target.others "A" none, Payload.video_change (some ⟨some "v2", []⟩)⟩] := by
  refine ⟨by rfl, by rfl, by rfl, by rfl⟩

/-- C15 (amended): a `playback_event` or `video_change` without `roomId` is
handled with the room id `undefined`: the cached state stored under the
property name `"undefined"` is updated (`playback_event`) or replaced
(`video_change`) as for any room, and the relay is emitted with
`socket.to(undefined)`, that is to the socket.io room `undefined` with the
sender excepted. -/
theorem event_without_room_handled (sv : Server) (c : String) (env : Env) :
    (∀ (state : Option String) (t : Option ℚ),
      (playbackEvent sv c env none state t).1.roomState "undefined"
        = some ⟨((sv.roomState "undefined").getD PlaybackState.empty).videoId, t,
            some (state == some "playing"), some env.now⟩ ∧
      (playbackEvent sv c env none state t).2
        = [⟨Target.others c none, Payload.playback_event state t env.now2⟩]) ∧
    (∀ video : Option Video,
      (videoChange sv c env none video).1.roomState "undefined"
        = some ⟨video.bind (fun v => v.id), some 0, some false, some env.now⟩ ∧
      (videoChange sv c env none video).2
        = [⟨Target.others c none, Payload.video_change video⟩]) := by
  constructor
  · intro state t
    exact ⟨by simp [playbackEvent, propKey, setAt], rfl⟩
  · intro video
    exact ⟨by simp [videoChange, propKey, setAt], rfl⟩

/-! ### Join broadcasts and the sync handshake -/

/-- Counterexample to C16 as stated: `Y` is in room `R` and has also sent
`join_room` with `roomId` equal to the connection id `J`. When `J` joins `R`,
`Y` receives the `room_users` roster but not the `user_joined` notice,
although `Y` is a connection in `R` other than `J`. -/
theorem join_notice_skips_member_counterexample :
    received (step (run Server.init
        [Input.connect "J", Input.connect "Y",
         Join.input (some "R") ⟨"Y", ⟨1, 1, 0, ""⟩, some "y", some "yan", none⟩,
         Join.input (some "J") ⟨"Y", ⟨2, 2, 0, ""⟩, some "y", some "yan", none⟩]).1
        (Join.input (some "R") ⟨"J", ⟨3, 3, 0, ""⟩, some "j", some "jo", none⟩)).1
      (step (run Server.init
        [Input.connect "J", Input.connect "Y",
         Join.input (some "R") ⟨"Y", ⟨1, 1, 0, ""⟩, some "y", some "yan", none⟩,
         Join.input (some "J") ⟨"Y", ⟨2, 2, 0, ""⟩, some "y", some "yan", none⟩]).1
        (Join.input (some "R") ⟨"J", ⟨3, 3, 0, ""⟩, some "j", some "jo", none⟩)).2 "Y"
      = [⟨Target.room (some "R"), Payload.room_users
          [⟨"Y", some "y", some "yan", none⟩, ⟨"J", some "j", some "jo", none⟩]⟩] ∧
    inRoom (step (run Server.init
        [Input.connect "J", Input.connect "Y",
         Join.input (some "R") ⟨"Y", ⟨1, 1, 0, ""⟩, some "y", some "yan", none⟩,
         Join.input (some "J") ⟨"Y", ⟨2, 2, 0, ""⟩, some "y", some "yan", none⟩]).1
        (Join.input (some "R") ⟨"J", ⟨3, 3, 0, ""⟩, some "j", some "jo", none⟩)).1
      "Y" (some "R") = true ∧
    "Y" ≠ "J" := by
  refine ⟨by rfl, by rfl, by decide⟩

/-- C16 (amended): when a live connection `c` joins room `R`, the `room_users`
event carries the roster of `R` as it is after the registration (with the
entry of `c`), and every member of `R`, `c` included, receives it; the
`user_joined` notice with the joiner's username is received by exactly the
members of `R` that are not in the room named by the id of `c`, and `c`
receives no `user_joined` at all. -/
theorem join_broadcasts (sv : Server) (c : String) (R U n a : Option String)
    (hlive : sv.live c = true) :
    ∃ roster, (joinRoom sv c R U n a).1.roomUsers (propKey R) = some roster ∧
      (⟨c, U, n, a⟩ : User) ∈ roster ∧
      inRoom (joinRoom sv c R U n a).1 c R = true ∧
      (∀ c', inRoom (joinRoom sv c R U n a).1 c' R = true →
        ⟨Target.room R, Payload.room_users roster⟩
          ∈ received (joinRoom sv c R U n a).1 (joinRoom sv c R U n a).2 c') ∧
      (∀ c', ⟨Target.others c R, Payload.user_joined n⟩
          ∈ received (joinRoom sv c R U n a).1 (joinRoom sv c R U n a).2 c'
        ↔ (inRoom (joinRoom sv c R U n a).1 c' R = true ∧
            inRoom (joinRoom sv c R U n a).1 c' (some c) = false)) ∧
      (∀ e ∈ received (joinRoom sv c R U n a).1 (joinRoom sv c R U n a).2 c,
        ∀ n', e.payload ≠ Payload.user_joined n') := by
  refine ⟨((sv.roomUsers (propKey R)).getD []).filter (fun x => x.userId != U)
    ++ [⟨c, U, n, a⟩], by simp [joinRoom, setAt], by simp, ?_, ?_, ?_, ?_⟩
  · by_cases hc : R ∈ sv.joined c
    · simp [inRoom, joinRoom, setAt, hlive, hc]
    · simp [inRoom, joinRoom, setAt, hlive, hc]
  · intro c' hc'
    simp only [received, List.mem_filter]
    exact ⟨by simp [joinRoom], by simpa [reaches] using hc'⟩
  · intro c'
    simp only [received, List.mem_filter]
    constructor
    · rintro ⟨-, h⟩
      simpa [reaches] using h
    · intro h
      exact ⟨by simp [joinRoom], by simpa [reaches] using h⟩
  · intro e he n' hp
    simp only [received, List.mem_filter] at he
    obtain ⟨hmem, hreach⟩ := he
    simp only [joinRoom, List.cons_append, List.nil_append, List.mem_cons] at hmem
    rcases hmem with rfl | rfl | hmem
    · simp at hp
    · have hex := sender_excepted (joinRoom sv c R U n a).1 c R
      simp only [reaches] at hreach
      rw [hex] at hreach
      exact absurd hreach (by decide)
    · cases hst : sv.roomState (propKey R) with
      | none => simp [hst] at hmem
      | some st =>
        simp only [hst, List.mem_singleton] at hmem
        subst hmem
        simp at hp

/-- Witness of C16 (amended): `B` joins room `R`, in which `A` already is. -/
theorem join_broadcasts_witness :
    ∃ roster,
      (joinRoom (run Server.init
          [Input.connect "A", Input.connect "B",
           Join.input (some "R") ⟨"A", ⟨1, 1, 0, ""⟩, some "a", some "ann", none⟩]).1
        "B" (some "R") (some "b") (some "bob") none).1.roomUsers (propKey (some "R"))
        = some roster ∧
      (⟨"B", some "b", some "bob", none⟩ : User) ∈ roster ∧
      inRoom (joinRoom (run Server.init
          [Input.connect "A", Input.connect "B",
           Join.input (some "R") ⟨"A", ⟨1, 1, 0, ""⟩, some "a", some "ann", none⟩]).1
        "B" (some "R") (some "b") (some "bob") none).1 "B" (some "R") = true ∧
      (∀ c', inRoom (joinRoom (run Server.init
          [Input.connect "A", Input.connect "B",
           Join.input (some "R") ⟨"A", ⟨1, 1, 0, ""⟩, some "a", some "ann", none⟩]).1
        "B" (some "R") (some "b") (some "bob") none).1 c' (some "R") = true →
        ⟨Target.room (some "R"), Payload.room_users roster⟩
          ∈ received (joinRoom (run Server.init
              [Input.connect "A", Input.connect "B",
               Join.input (some "R") ⟨"A", ⟨1, 1, 0, ""⟩, some "a", some "ann", none⟩]).1
            "B" (some "R") (some "b") (some "bob") none).1
            (joinRoom (run Server.init
              [Input.connect "A", Input.connect "B",
               Join.input (some "R") ⟨"A", ⟨1, 1, 0, ""⟩, some "a", some "ann", none⟩]).1
            "B" (some "R") (some "b") (some "bob") none).2 c') ∧
      (∀ c', ⟨Target.others "B" (some "R"), Payload.user_joined (some "bob")⟩
          ∈ received (joinRoom (run Server.init
              [Input.connect "A", Input.connect "B",
               Join.input (some "R") ⟨"A", ⟨1, 1, 0, ""⟩, some "a", some "ann", none⟩]).1
            "B" (some "R") (some "b") (some "bob") none).1
            (joinRoom (run Server.init
              [Input.connect "A", Input.connect "B",
               Join.input (some "R") ⟨"A", ⟨1, 1, 0, ""⟩, some "a", some "ann", none⟩]).1
            "B" (some "R") (some "b") (some "bob") none).2 c'
        ↔ (inRoom (joinRoom (run Server.init
              [Input.connect "A", Input.connect "B",
               Join.input (some "R") ⟨"A", ⟨1, 1, 0, ""⟩, some "a", some "ann", none⟩]).1
            "B" (some "R") (some "b") (some "bob") none).1 c' (some "R") = true ∧
          inRoom (joinRoom (run Server.init
              [Input.connect "A", Input.connect "B",
               Join.input (some "R") ⟨"A", ⟨1, 1, 0, ""⟩, some "a", some "ann", none⟩]).1
            "B" (some "R") (some "b") (some "bob") none).1 c' (some "B") = false)) ∧
      (∀ e ∈ received (joinRoom (run Server.init
              [Input.connect "A", Input.connect "B",
               Join.input (some "R") ⟨"A", ⟨1, 1, 0, ""⟩, some "a", some "ann", none⟩]).1
            "B" (some "R") (some "b") (some "bob") none).1
            (joinRoom (run Server.init
              [Input.connect "A", Input.connect "B",
               Join.input (some "R") ⟨"A", ⟨1, 1, 0, ""⟩, some "a", some "ann", none⟩]).1
            "B" (some "R") (some "b") (some "bob") none).2 "B",
        ∀ n', e.payload ≠ Payload.user_joined n') :=
  join_broadcasts _ "B" (some "R") (some "b") (some "bob") none (by rfl)

/-- Counterexample to C17 as stated: `Q`, `A` and `Y` are in room `R`, and `Y`
has also sent `join_room` with `roomId` equal to the connection id `Q`. The
`request_sync` of `Q` for `R` gives a `sync_please` to `A` but none to `Y`,
although `Y` is a connection in `R` other than `Q`. -/
theorem sync_please_skips_member_counterexample :
    inRoom (run Server.init
        [Input.connect "Q", Input.connect "A", Input.connect "Y",
         Join.input (some "R") ⟨"Q", ⟨1, 1, 0, ""⟩, some "q", none, none⟩,
         Join.input (some "R") ⟨"A", ⟨2, 2, 0, ""⟩, some "a", none, none⟩,
         Join.input (some "R") ⟨"Y", ⟨3, 3, 0, ""⟩, some "y", none, none⟩,
         Join.input (some "Q") ⟨"Y", ⟨4, 4, 0, ""⟩, some "y", none, none⟩]).1
      "Y" (some "R") = true ∧
    "Y" ≠ "Q" ∧
    received (run Server.init
        [Input.connect "Q", Input.connect "A", Input.connect "Y",
         Join.input (some "R") ⟨"Q", ⟨1, 1, 0, ""⟩, some "q", none, none⟩,
         Join.input (some "R") ⟨"A", ⟨2, 2, 0, ""⟩, some "a", none, none⟩,
         Join.input (some "R") ⟨"Y", ⟨3, 3, 0, ""⟩, some "y", none, none⟩,
         Join.input (some "Q") ⟨"Y", ⟨4, 4, 0, ""⟩, some "y", none, none⟩]).1
      (step (run Server.init
        [Input.connect "Q", Input.connect "A", Input.connect "Y",
         Join.input (some "R") ⟨"Q", ⟨1, 1, 0, ""⟩, some "q", none, none⟩,
         Join.input (some "R") ⟨"A", ⟨2, 2, 0, ""⟩, some "a", none, none⟩,
         Join.input (some "R") ⟨"Y", ⟨3, 3, 0, ""⟩, some "y", none, none⟩,
         Join.input (some "Q") ⟨"Y", ⟨4, 4, 0, ""⟩, some "y", none, none⟩]).1
        (Input.event "Q" ⟨5, 5, 0, ""⟩ (ClientEvent.request_sync (some "R")))).2 "Y" = [] ∧
    received (run Server.init
        [Input.connect "Q", Input.connect "A", Input.connect "Y",
         Join.input (some "R") ⟨"Q", ⟨1, 1, 0, ""⟩, some "q", none, none⟩,
         Join.input (some "R") ⟨"A", ⟨2, 2, 0, ""⟩, some "a", none, none⟩,
         Join.input (some "R") ⟨"Y", ⟨3, 3, 0, ""⟩, some "y", none, none⟩,
         Join.input (some "Q") ⟨"Y", ⟨4, 4, 0, ""⟩, some "y", none, none⟩]).1
      (step (run Server.init
        [Input.connect "Q", Input.connect "A", Input.connect "Y",
         Join.input (some "R") ⟨"Q", ⟨1, 1, 0, ""⟩, some "q", none, none⟩,
         Join.input (some "R") ⟨"A", ⟨2, 2, 0, ""⟩, some "a", none, none⟩,
         Join.input (some "R") ⟨"Y", ⟨3, 3, 0, ""⟩, some "y", none, none⟩,
         Join.input (some "Q") ⟨"Y", ⟨4, 4, 0, ""⟩, some "y", none, none⟩]).1
        (Input.event "Q" ⟨5, 5, 0, ""⟩ (ClientEvent.request_sync (some "R")))).2 "A"
      = [⟨Target.others "Q" (some "R"), Payload.sync_please "Q"⟩] := by
  refine ⟨by rfl, by decide, by rfl, by rfl⟩

/-- C17 (amended): a `request_sync` for room `R` from connection `c` emits one
`sync_please` whose `toSocketId` is the id of `c`; a connection receives it
exactly when it is a member of `R` and not a member of the room named by the
id of `c`, so `c` itself never receives it; and the server state, `roomUsers`
and `roomState` included, is left as it was. -/
theorem request_sync_relay (sv : Server) (c : String) (R : Option String) :
    (∀ c', received (requestSync sv c R).1 (requestSync sv c R).2 c'
        = if inRoom sv c' R && !inRoom sv c' (some c)
          then [⟨Target.others c R, Payload.sync_please c⟩] else []) ∧
      received (requestSync sv c R).1 (requestSync sv c R).2 c = [] ∧
      (requestSync sv c R).1.roomUsers = sv.roomUsers ∧
      (requestSync sv c R).1.roomState = sv.roomState := by
  have h : ∀ c', received (requestSync sv c R).1 (requestSync sv c R).2 c'
      = if inRoom sv c' R && !inRoom sv c' (some c)
        then [⟨Target.others c R, Payload.sync_please c⟩] else [] := by
    intro c'
    simp only [received, requestSync, List.filter_cons, List.filter_nil, reaches, inRoom]
  refine ⟨h, ?_, rfl, rfl⟩
  rw [h, sender_excepted]
  rfl

/-- Counterexample to C18 as stated: `A` sends `join_room` with the empty
string as `roomId`, so that the room recorded in its `socket.data` is `""`,
and then `sync_response`. The handler's test `if (rid)` fails for `""`: no
cached state is created for that room. -/
theorem sync_response_empty_room_counterexample :
    ((run Server.init
        [Input.connect "A",
         Join.input (some "") ⟨"A", ⟨1, 1, 0, ""⟩, some "a", none, none⟩]).1.data "A").roomId
      = some "" ∧
    inRoom (run Server.init
        [Input.connect "A",
         Join.input (some "") ⟨"A", ⟨1, 1, 0, ""⟩, some "a", none, none⟩]).1 "A" (some "")
      = true ∧
    (run Server.init
        [Input.connect "A",
         Join.input (some "") ⟨"A", ⟨1, 1, 0, ""⟩, some "a", none, none⟩,
         Input.event "A" ⟨2, 2, 0, ""⟩
           (ClientEvent.sync_response (some "B") (some 7) (some true) (some "v1"))]
      ).1.roomState "" = none := by
  refine ⟨by rfl, by rfl, by rfl⟩

/-- C18 (amended): `sync_response` from a connection whose `socket.data`
records a joined room `R` with a non-empty id (what the handler tests) leaves
the cached state of `R` with `videoId`, `currentTime` and `playing` equal to the
values of the response and with `updatedAt` as it was before (absent when the
entry did not exist); from a connection whose recorded room id is absent or
the empty string it leaves `roomState` unchanged. -/
theorem sync_response_updates_cache (sv : Server) (c : String) (toSocketId : Option String)
    (ct : Option ℚ) (p : Option Bool) (v : Option String) :
    (∀ R : String, (sv.data c).roomId = some R → R ≠ "" →
      (syncResponse sv c toSocketId ct p v).1.roomState R
        = some ⟨v, ct, p, ((sv.roomState R).getD PlaybackState.empty).updatedAt⟩) ∧
    (truthy (sv.data c).roomId = false →
      (syncResponse sv c toSocketId ct p v).1.roomState = sv.roomState) := by
  constructor
  · intro R hR hne
    have ht : truthy (some R) = true := by simp [truthy, hne]
    simp [syncResponse, hR, ht, propKey, setAt]
  · intro hf
    simp [syncResponse, hf]

/-- Witness of C18 (amended): `B` is in room `R`, whose cache was written at clock 100,
and answers with `currentTime = 7`. -/
theorem sync_response_updates_cache_witness :
    (syncResponse (run Server.init
        [Input.connect "A", Input.connect "B",
         Join.input (some "R") ⟨"B", ⟨1, 1, 0, ""⟩, some "b", none, none⟩,
         Input.event "A" ⟨100, 100, 0, ""⟩
           (ClientEvent.video_change (some "R") (some ⟨some "v1", []⟩))]).1
      "B" (some "A") (some 7) (some true) (some "v1")).1.roomState "R"
      = some ⟨some "v1", some 7, some true,
          (((run Server.init
            [Input.connect "A", Input.connect "B",
             Join.input (some "R") ⟨"B", ⟨1, 1, 0, ""⟩, some "b", none, none⟩,
             Input.event "A" ⟨100, 100, 0, ""⟩
               (ClientEvent.video_change (some "R") (some ⟨some "v1", []⟩))]).1.roomState
              "R").getD PlaybackState.empty).updatedAt⟩ ∧
    (syncResponse (run Server.init [Input.connect "A"]).1
      "A" (some "B") (some 7) (some true) (some "v1")).1.roomState
      = (run Server.init [Input.connect "A"]).1.roomState :=
  ⟨(sync_response_updates_cache _ "B" (some "A") (some 7) (some true) (some "v1")).1 "R"
      (by rfl) (by decide),
   (sync_response_updates_cache _ "A" (some "B") (some 7) (some true) (some "v1")).2
      (by rfl)⟩

/-! ### Signalling relay and message ids -/

/-- C19, the handlers at the failing input: connection `Y` has sent
`join_room` with `roomId` equal to the connection id `X`, and another with
`roomId` equal to `Z`, an id under which no connection is live. A
`webrtc_offer` that `S` addresses to `X` is received by `Y` as well as by
`X`, and a `webrtc_ice` addressed to `Z` is received by `Y`. -/
theorem webrtc_reaches_other :
    received (run Server.init
        [Input.connect "X", Input.connect "S", Input.connect "Y",
         Join.input (some "X") ⟨"Y", ⟨1, 1, 0, ""⟩, some "y", none, none⟩,
         Join.input (some "Z") ⟨"Y", ⟨2, 2, 0, ""⟩, some "y", none, none⟩]).1
      (step (run Server.init
        [Input.connect "X", Input.connect "S", Input.connect "Y",
         Join.input (some "X") ⟨"Y", ⟨1, 1, 0, ""⟩, some "y", none, none⟩,
         Join.input (some "Z") ⟨"Y", ⟨2, 2, 0, ""⟩, some "y", none, none⟩]).1
        (Input.event "S" ⟨3, 3, 0, ""⟩
          (ClientEvent.webrtc_offer (some "X") (Val.str "sdp")))).2 "Y"
      = [⟨Target.room (some "X"), Payload.webrtc_offer "S" (Val.str "sdp")⟩] ∧
    received (run Server.init
        [Input.connect "X", Input.connect "S", Input.connect "Y",
         Join.input (some "X") ⟨"Y", ⟨1, 1, 0, ""⟩, some "y", none, none⟩,
         Join.input (some "Z") ⟨"Y", ⟨2, 2, 0, ""⟩, some "y", none, none⟩]).1
      (step (run Server.init
        [Input.connect "X", Input.connect "S", Input.connect "Y",
         Join.input (some "X") ⟨"Y", ⟨1, 1, 0, ""⟩, some "y", none, none⟩,
         Join.input (some "Z") ⟨"Y", ⟨2, 2, 0, ""⟩, some "y", none, none⟩]).1
        (Input.event "S" ⟨3, 3, 0, ""⟩
          (ClientEvent.webrtc_offer (some "X") (Val.str "sdp")))).2 "X"
      = [⟨Target.room (some "X"), Payload.webrtc_offer "S" (Val.str "sdp")⟩] ∧
    (run Server.init
        [Input.connect "X", Input.connect "S", Input.connect "Y",
         Join.input (some "X") ⟨"Y", ⟨1, 1, 0, ""⟩, some "y", none, none⟩,
         Join.input (some "Z") ⟨"Y", ⟨2, 2, 0, ""⟩, some "y", none, none⟩]).1.live "Z"
      = false ∧
    received (run Server.init
        [Input.connect "X", Input.connect "S", Input.connect "Y",
         Join.input (some "X") ⟨"Y", ⟨1, 1, 0, ""⟩, some "y", none, none⟩,
         Join.input (some "Z") ⟨"Y", ⟨2, 2, 0, ""⟩, some "y", none, none⟩]).1
      (step (run Server.init
        [Input.connect "X", Input.connect "S", Input.connect "Y",
         Join.input (some "X") ⟨"Y", ⟨1, 1, 0, ""⟩, some "y", none, none⟩,
         Join.input (some "Z") ⟨"Y", ⟨2, 2, 0, ""⟩, some "y", none, none⟩]).1
        (Input.event "S" ⟨4, 4, 0, ""⟩
          (ClientEvent.webrtc_ice (some "Z") (Val.str "cand")))).2 "Y"
      = [⟨Target.room (some "Z"), Payload.webrtc_ice "S" (Val.str "cand")⟩] ∧
    "Y" ≠ "X" := by
  refine ⟨by rfl, by rfl, by rfl, by rfl, by decide⟩

/-- C20, the handler at the failing input: `A` and `B` each send a message,
and both handlers read the same clock value 1000 and draw the same random
number 1/4. The two `receive_message` broadcasts carry the same `id`. -/
theorem message_ids_collide :
    ((run Server.init
        [Input.connect "A", Input.connect "B",
         Join.input (some "R") ⟨"A", ⟨1, 1, 0, ""⟩, some "a", none, none⟩,
         Join.input (some "R") ⟨"B", ⟨2, 2, 0, ""⟩, some "b", none, none⟩,
         Input.event "A" ⟨1000, 1000, 1 / 4, "t"⟩
           (ClientEvent.send_message (some "R") [("content", Val.str "hello")]),
         Input.event "B" ⟨1000, 1000, 1 / 4, "t"⟩
           (ClientEvent.send_message (some "R") [("content", Val.str "bye")])]).2.drop 4)
      = [[⟨Target.room (some "R"), Payload.receive_message (some "R")
            [("content", Val.str "hello"), ("id", Val.num (((1000 : Nat) : ℚ) + 1 / 4)),
             ("time", Val.str "t")]⟩],
         [⟨Target.room (some "R"), Payload.receive_message (some "R")
            [("content", Val.str "bye"), ("id", Val.num (((1000 : Nat) : ℚ) + 1 / 4)),
             ("time", Val.str "t")]⟩]] := by
  rfl

/-! ### Cached playback state over the whole event loop -/

/-- One turn whose reported position, if any, is present and not negative
keeps every cached `currentTime` present and not negative. -/
theorem step_time_nonneg (sv : Server) (i : Input) (hi : reportsNonneg i = true)
    (h : ∀ k st, sv.roomState k = some st → ∃ q, st.currentTime = some q ∧ 0 ≤ q) :
    ∀ k st, (step sv i).1.roomState k = some st → ∃ q, st.currentTime = some q ∧ 0 ≤ q := by
  intro k st hk
  cases i with
  | connect c =>
    simp only [step] at hk
    split at hk <;> exact h k st hk
  | disconnect c =>
    simp only [step] at hk
    split at hk
    · simp only [disconnect] at hk
      split at hk <;> exact h k st hk
    · exact h k st hk
  | event c env ev =>
    simp only [step] at hk
    split at hk
    · cases ev with
      | video_change r v =>
        simp only [handle, videoChange] at hk
        by_cases hkey : k = propKey r
        · subst hkey
          simp only [setAt_same, Option.some.injEq] at hk
          subst hk
          exact ⟨0, rfl, le_refl _⟩
        · rw [setAt_other _ _ _ _ hkey] at hk
          exact h k st hk
      | playback_event r state t =>
        cases t with
        | none => simp [reportsNonneg] at hi
        | some q =>
          have hq : 0 ≤ q := by simpa [reportsNonneg] using hi
          simp only [handle, playbackEvent] at hk
          by_cases hkey : k = propKey r
          · subst hkey
            simp only [setAt_same, Option.some.injEq] at hk
            subst hk
            exact ⟨q, rfl, hq⟩
          · rw [setAt_other _ _ _ _ hkey] at hk
            exact h k st hk
      | sync_response dest t p v =>
        cases t with
        | none => simp [reportsNonneg] at hi
        | some q =>
          have hq : 0 ≤ q := by simpa [reportsNonneg] using hi
          simp only [handle, syncResponse] at hk
          split at hk
          · dsimp only at hk
            by_cases hkey : k = propKey (sv.data c).roomId
            · subst hkey
              simp only [setAt_same, Option.some.injEq] at hk
              subst hk
              exact ⟨q, rfl, hq⟩
            · rw [setAt_other _ _ _ _ hkey] at hk
              exact h k st hk
          · exact h k st hk
      | _ => exact h k st hk
    · exact h k st hk

/-- Counterexample to C21 as stated: `A` sends a `playback_event` with
`currentTime = -5`; the reachable state caches `currentTime = -5`. -/
theorem cached_time_negative_counterexample :
    (run Server.init
        [Input.connect "A",
         Input.event "A" ⟨100, 100, 0, ""⟩
           (ClientEvent.playback_event (some "R") (some "paused") (some (-5)))]).1.roomState "R"
      = some ⟨none, some (-5), some false, some 100⟩ ∧
    Reachable (run Server.init
        [Input.connect "A",
         Input.event "A" ⟨100, 100, 0, ""⟩
           (ClientEvent.playback_event (some "R") (some "paused") (some (-5)))]).1 ∧
    ¬ ((0 : ℚ) ≤ -5) := by
  refine ⟨by rfl, ⟨_, rfl⟩, by norm_num⟩

/-- C21 (amended): in every state reached by a sequence of inputs in which
each `playback_event` and each `sync_response` carries a `currentTime` that is
present and `≥ 0` (any other payload being arbitrary), every cached playback
state has a `currentTime` that is present and `≥ 0`. -/
theorem cached_time_nonneg (inputs : List Input)
    (hin : ∀ i ∈ inputs, reportsNonneg i = true) :
    ∀ k st, (run Server.init inputs).1.roomState k = some st →
      ∃ q, st.currentTime = some q ∧ 0 ≤ q := by
  have key : ∀ (l : List Input) (sv : Server), (∀ i ∈ l, reportsNonneg i = true) →
      (∀ k st, sv.roomState k = some st → ∃ q, st.currentTime = some q ∧ 0 ≤ q) →
      ∀ k st, (run sv l).1.roomState k = some st → ∃ q, st.currentTime = some q ∧ 0 ≤ q := by
    intro l
    induction l with
    | nil => intro sv _ h; simpa [run] using h
    | cons i rest ih =>
      intro sv hl h
      simp only [run]
      exact ih _ (fun j hj => hl j (List.mem_cons_of_mem _ hj))
        (step_time_nonneg sv i (hl i (List.mem_cons_self _ _)) h)
  exact key inputs Server.init hin (by simp [Server.init])

/-- Witness of C21 (amended): a video change, a playback report at 12.5 and a
sync answer at 3. -/
theorem cached_time_nonneg_witness :
    ∃ q, (⟨some "v1", some 3, some true, some 200⟩ : PlaybackState).currentTime = some q
      ∧ 0 ≤ q :=
  cached_time_nonneg
    [Input.connect "A",
     Input.event "A" ⟨1, 1, 0, ""⟩ (ClientEvent.join_room (some "R") (some "a") none none),
     Input.event "A" ⟨100, 100, 0, ""⟩
       (ClientEvent.video_change (some "R") (some ⟨some "v1", []⟩)),
     Input.event "A" ⟨200, 200, 0, ""⟩
       (ClientEvent.playback_event (some "R") (some "playing") (some (25 / 2))),
     Input.event "A" ⟨300, 300, 0, ""⟩
       (ClientEvent.sync_response (some "B") (some 3) (some true) (some "v1"))]
    (by
      intro i hi
      simp only [List.mem_cons, List.mem_singleton, List.not_mem_nil, or_false] at hi
      rcases hi with rfl | rfl | rfl | rfl | rfl <;>
        first | rfl | (simp [reportsNonneg]; norm_num))
    "R" ⟨some "v1", some 3, some true, some 200⟩ (by rfl)

/-- C22: the handlers of `send_message`, `typing`, `stop_typing`,
`request_sync`, `screen_share_start`, `screen_share_stop` and of the four
`webrtc_*` events return `roomUsers` and `roomState` exactly as they got them,
for every state, sender and payload. -/
theorem relays_keep_room_state (sv : Server) (c : String) (env : Env)
    (r n : Option String) (props : List (String × Val)) (blob : Val) :
    ((sendMessage sv env r props).1.roomUsers = sv.roomUsers ∧
      (sendMessage sv env r props).1.roomState = sv.roomState) ∧
    ((typing sv c r n).1.roomUsers = sv.roomUsers ∧
      (typing sv c r n).1.roomState = sv.roomState) ∧
    ((stopTyping sv c r).1.roomUsers = sv.roomUsers ∧
      (stopTyping sv c r).1.roomState = sv.roomState) ∧
    ((requestSync sv c r).1.roomUsers = sv.roomUsers ∧
      (requestSync sv c r).1.roomState = sv.roomState) ∧
    ((screenShareStart sv c r n).1.roomUsers = sv.roomUsers ∧
      (screenShareStart sv c r n).1.roomState = sv.roomState) ∧
    ((screenShareStop sv c r).1.roomUsers = sv.roomUsers ∧
      (screenShareStop sv c r).1.roomState = sv.roomState) ∧
    ((webrtcRequest sv c r).1.roomUsers = sv.roomUsers ∧
      (webrtcRequest sv c r).1.roomState = sv.roomState) ∧
    ((webrtcOffer sv c r blob).1.roomUsers = sv.roomUsers ∧
      (webrtcOffer sv c r blob).1.roomState = sv.roomState) ∧
    ((webrtcAnswer sv c r blob).1.roomUsers = sv.roomUsers ∧
      (webrtcAnswer sv c r blob).1.roomState = sv.roomState) ∧
    ((webrtcIce sv c r blob).1.roomUsers = sv.roomUsers ∧
      (webrtcIce sv c r blob).1.roomState = sv.roomState) :=
  ⟨⟨rfl, rfl⟩, ⟨rfl, rfl⟩, ⟨rfl, rfl⟩, ⟨rfl, rfl⟩, ⟨rfl, rfl⟩, ⟨rfl, rfl⟩, ⟨rfl, rfl⟩,
   ⟨rfl, rfl⟩, ⟨rfl, rfl⟩, ⟨rfl, rfl⟩⟩

/-- In the state used for C23 a member of room `R` is outside the room named
`C`: the members of `R` are `A` and `B`, and nobody entered a room named `C`. -/
theorem members_outside_room_C (c' : String)
    (hc : inRoom (run Server.init
      [Input.connect "A", Input.connect "B", Input.connect "C",
       Join.input (some "R") ⟨"A", ⟨1, 1, 0, ""⟩, some "a", none, none⟩,
       Join.input (some "R") ⟨"B", ⟨2, 2, 0, ""⟩, some "b", none, none⟩,
       Input.event "A" ⟨100, 100, 0, ""⟩
         (ClientEvent.video_change (some "R") (some ⟨some "v1", []⟩))]).1 c' (some "R") = true) :
    inRoom (run Server.init
      [Input.connect "A", Input.connect "B", Input.connect "C",
       Join.input (some "R") ⟨"A", ⟨1, 1, 0, ""⟩, some "a", none, none⟩,
       Join.input (some "R") ⟨"B", ⟨2, 2, 0, ""⟩, some "b", none, none⟩,
       Input.event "A" ⟨100, 100, 0, ""⟩
         (ClientEvent.video_change (some "R") (some ⟨some "v1", []⟩))]).1 c' (some "C")
      = false := by
  by_cases hA : c' = "A"
  · subst hA
    rfl
  · by_cases hB : c' = "B"
    · subst hB
      rfl
    · exfalso
      revert hc
      simp [inRoom, run, step, Join.input, handle, joinRoom, videoChange, setAt, Server.init,
        hA, hB]
      rintro rfl
      decide

/-- C23: there is a reachable state with a room `R`, in which `A` and `B` are
and which has a cached playback state, and a live connection `C` that never
joined any room, such that a `video_change` from `C` with `roomId = R`
replaces the cached state of `R` and a `playback_event` from `C` overwrites it,
each relay being received by every connection that is in room `R`. -/
theorem broadcast_without_membership :
    ∃ (sv : Server) (C R : String), Reachable sv ∧
      sv.live C = true ∧ sv.joined C = [] ∧ inRoom sv C (some R) = false ∧
      inRoom sv "A" (some R) = true ∧ inRoom sv "B" (some R) = true ∧
      sv.roomState R = some ⟨some "v1", some 0, some false, some 100⟩ ∧
      (∀ (env : Env) (video : Option Video),
        (videoChange sv C env (some R) video).1.roomState R
          = some ⟨video.bind (fun v => v.id), some 0, some false, some env.now⟩ ∧
        ∀ c', inRoom sv c' (some R) = true →
          received (videoChange sv C env (some R) video).1
            (videoChange sv C env (some R) video).2 c'
            = [⟨Target.others C (some R), Payload.video_change video⟩]) ∧
      (∀ (env : Env) (state : Option String) (t : Option ℚ),
        (playbackEvent sv C env (some R) state t).1.roomState R
          = some ⟨some "v1", t, some (state == some "playing"), some env.now⟩ ∧
        ∀ c', inRoom sv c' (some R) = true →
          received (playbackEvent sv C env (some R) state t).1
            (playbackEvent sv C env (some R) state t).2 c'
            = [⟨Target.others C (some R), Payload.playback_event state t env.now2⟩]) := by
  refine ⟨(run Server.init
      [Input.connect "A", Input.connect "B", Input.connect "C",
       Join.input (some "R") ⟨"A", ⟨1, 1, 0, ""⟩, some "a", none, none⟩,
       Join.input (some "R") ⟨"B", ⟨2, 2, 0, ""⟩, some "b", none, none⟩,
       Input.event "A" ⟨100, 100, 0, ""⟩
         (ClientEvent.video_change (some "R") (some ⟨some "v1", []⟩))]).1,
    "C", "R", ⟨_, rfl⟩, by rfl, by rfl, by rfl, by rfl, by rfl, by rfl, ?_, ?_⟩
  · intro env video
    refine ⟨by simp [videoChange, propKey, setAt], ?_⟩
    intro c' hc
    rw [received_videoChange, hc, members_outside_room_C c' hc]
    rfl
  · intro env state t
    refine ⟨?_, ?_⟩
    · have hst : (run Server.init
          [Input.connect "A", Input.connect "B", Input.connect "C",
           Join.input (some "R") ⟨"A", ⟨1, 1, 0, ""⟩, some "a", none, none⟩,
           Join.input (some "R") ⟨"B", ⟨2, 2, 0, ""⟩, some "b", none, none⟩,
           Input.event "A" ⟨100, 100, 0, ""⟩
             (ClientEvent.video_change (some "R") (some ⟨some "v1", []⟩))]).1.roomState "R"
          = some ⟨some "v1", some 0, some false, some 100⟩ := by rfl
      simp [playbackEvent, propKey, setAt, hst]
    · intro c' hc
      rw [received_playbackEvent, hc, members_outside_room_C c' hc]
      rfl

/-! ### Client handlers -/

/-- C24: the client's `sync_response` handler leaves the player exactly as it
is (position, play state and every other field) when the `videoId` of the
response differs from the id of the selected video, and otherwise calls
`applySync` with `'playing'` when `playing` is `true` and `'paused'` when it
is not, at the `currentTime` of the response. -/
theorem sync_response_applied_on_match (video : Option Video) (ct : Option ℚ)
    (p : Option Bool) (videoId : Option String) (pl : Player) :
    (videoId ≠ video.bind (fun v => v.id) →
      onSyncResponse video ct p videoId pl = pl ∧
      (onSyncResponse video ct p videoId pl).position = pl.position ∧
      (onSyncResponse video ct p videoId pl).playing = pl.playing ∧
      (onSyncResponse video ct p videoId pl).mediaPlaying = pl.mediaPlaying) ∧
    (videoId = video.bind (fun v => v.id) →
      (p = some true → onSyncResponse video ct p videoId pl = applySync "playing" ct pl) ∧
      (p ≠ some true → onSyncResponse video ct p videoId pl = applySync "paused" ct pl)) := by
  constructor
  · intro h
    have h2 : onSyncResponse video ct p videoId pl = pl := by
      simp [onSyncResponse, h]
    rw [h2]
    exact ⟨rfl, rfl, rfl, rfl⟩
  · intro h
    constructor
    · intro hp
      simp [onSyncResponse, h, hp]
    · intro hp
      simp [onSyncResponse, h, hp]

/-- Witness of C24: the selected video is `v1`; an answer for `v2` is ignored,
and a playing answer for `v1` at 40 s moves a paused native player from 10 s
to 40 s and starts it. -/
theorem sync_response_applied_on_match_witness :
    onSyncResponse (some ⟨some "v1", []⟩) (some 40) (some true) (some "v2")
        ⟨some "upload", true, 10, false, false, false, false⟩
      = ⟨some "upload", true, 10, false, false, false, false⟩ ∧
    onSyncResponse (some ⟨some "v1", []⟩) (some 40) (some true) (some "v1")
        ⟨some "upload", true, 10, false, false, false, false⟩
      = applySync "playing" (some 40) ⟨some "upload", true, 10, false, false, false, false⟩ ∧
    applySync "playing" (some 40) ⟨some "upload", true, 10, false, false, false, false⟩
      = ⟨some "upload", true, 40, true, true, false, true⟩ :=
  ⟨((sync_response_applied_on_match (some ⟨some "v1", []⟩) (some 40) (some true) (some "v2")
      ⟨some "upload", true, 10, false, false, false, false⟩).1 (by decide)).1,
   ((sync_response_applied_on_match (some ⟨some "v1", []⟩) (some 40) (some true) (some "v1")
      ⟨some "upload", true, 10, false, false, false, false⟩).2 (by decide)).1 rfl,
   by
    norm_num [applySync, DRIFT_SEC, abs_of_neg]
    rfl⟩

/-- Whether a list of messages holds one with the id of `msg`. -/
theorem any_msgId_iff (prev : List (List (String × Val))) (msg : List (String × Val)) :
    prev.any (fun m => msgId m == msgId msg) = true ↔ msgId msg ∈ prev.map msgId := by
  simp only [List.any_eq_true, beq_iff_eq, List.mem_map]

/-- The message handler keeps ids pairwise distinct. -/
theorem onMsg_nodup (prev : List (List (String × Val))) (msg : List (String × Val))
    (h : (prev.map msgId).Nodup) : ((onMsg prev msg).map msgId).Nodup := by
  unfold onMsg
  by_cases hany : prev.any (fun m => msgId m == msgId msg) = true
  · simpa [hany] using h
  · have hnot : msgId msg ∉ prev.map msgId := fun hm => hany ((any_msgId_iff prev msg).2 hm)
    rw [if_neg hany]
    simp only [List.map_append, List.map_cons, List.map_nil]
    rw [List.nodup_append]
    refine ⟨h, by simp, ?_⟩
    intro a ha hb
    simp only [List.mem_singleton] at hb
    subst hb
    exact hnot ha

/-- C25: the `receive_message` handler returns the list unchanged when it
already holds a message with the id of the received one; handling the same
message twice gives the list that handling it once gives; a list with
pairwise distinct ids still has pairwise distinct ids after any sequence of
received messages; and a message whose id is new is appended at the end. -/
theorem receive_message_dedup (prev : List (List (String × Val))) (msg : List (String × Val))
    (msgs : List (List (String × Val))) :
    (msgId msg ∈ prev.map msgId → onMsg prev msg = prev) ∧
    onMsg (onMsg prev msg) msg = onMsg prev msg ∧
    ((prev.map msgId).Nodup → ((msgs.foldl onMsg prev).map msgId).Nodup) ∧
    (msgId msg ∉ prev.map msgId → onMsg prev msg = prev ++ [msg]) := by
  refine ⟨?_, ?_, ?_, ?_⟩
  · intro h
    simp [onMsg, (any_msgId_iff prev msg).2 h]
  · by_cases hany : prev.any (fun m => msgId m == msgId msg) = true
    · simp [onMsg, hany]
    · have h2 : (prev ++ [msg]).any (fun m => msgId m == msgId msg) = true := by
        simp
      simp [onMsg, hany, h2]
  · intro h
    induction msgs generalizing prev with
    | nil => simpa using h
    | cons m rest ih =>
      simp only [List.foldl_cons]
      exact ih (onMsg prev m) (onMsg_nodup prev m h)
  · intro h
    have hany : ¬ prev.any (fun m => msgId m == msgId msg) = true :=
      fun ha => h ((any_msgId_iff prev msg).1 ha)
    simp [onMsg, hany]

/-- Witness of C25: the list holds the message with id 1; the message with
id 1 arrives again and the message with id 2 arrives twice. -/
theorem receive_message_dedup_witness :
    onMsg [[("id", Val.num 1), ("content", Val.str "a")]]
        [("id", Val.num 1), ("content", Val.str "a")]
      = [[("id", Val.num 1), ("content", Val.str "a")]] ∧
    (([[("id", Val.num 2)], [("id", Val.num 1)], [("id", Val.num 2)]].foldl onMsg
        [[("id", Val.num 1), ("content", Val.str "a")]]).map msgId).Nodup ∧
    onMsg [[("id", Val.num 1), ("content", Val.str "a")]] [("id", Val.num 2)]
      = [[("id", Val.num 1), ("content", Val.str "a")]] ++ [[("id", Val.num 2)]] :=
  ⟨(receive_message_dedup [[("id", Val.num 1), ("content", Val.str "a")]]
      [("id", Val.num 1), ("content", Val.str "a")] []).1 (by decide),
   (receive_message_dedup [[("id", Val.num 1), ("content", Val.str "a")]]
      [("id", Val.num 1), ("content", Val.str "a")]
      [[("id", Val.num 2)], [("id", Val.num 1)], [("id", Val.num 2)]]).2.2.1 (by decide),
   (receive_message_dedup [[("id", Val.num 1), ("content", Val.str "a")]]
      [("id", Val.num 2)] []).2.2.2 (by decide)⟩

/-! ### Video streaming -/

/-- C26: for a range request `bytes=S-` (nothing after the dash) on a file of
`n` bytes with `S < n` (in particular `0 ≤ S < n`), the served range starts
at `S` and ends at `min (S + 4·1024·1024 − 1) (n − 1)`; the end is at least
`S` and at most `n − 1`, and `Content-Length = end − S + 1` is between 1 and
4194304. -/
theorem stream_chunk_bounds (n S : Int) (h1 : S < n) :
    (streamRange n S none).1 = S ∧
    (streamRange n S none).2.1 = min (S + 4 * 1024 * 1024 - 1) (n - 1) ∧
    S ≤ (streamRange n S none).2.1 ∧
    (streamRange n S none).2.1 ≤ n - 1 ∧
    (streamRange n S none).2.2 = (streamRange n S none).2.1 - S + 1 ∧
    1 ≤ (streamRange n S none).2.2 ∧
    (streamRange n S none).2.2 ≤ 4194304 := by
  refine ⟨rfl, rfl, ?_, ?_, rfl, ?_, ?_⟩ <;> simp only [streamRange]
  · exact le_min (by omega) (by omega)
  · exact min_le_right _ _
  · have : S ≤ min (S + 4 * 1024 * 1024 - 1) (n - 1) := le_min (by omega) (by omega)
    omega
  · have : min (S + 4 * 1024 * 1024 - 1) (n - 1) ≤ S + 4 * 1024 * 1024 - 1 := min_le_left _ _
    omega

/-- Witness of C26: a 10 MB file read from byte 0 gives one full 4 MB chunk,
and read from byte 10000000 gives the 485760 bytes that are left. -/
theorem stream_chunk_bounds_witness :
    ((streamRange 10485760 0 none).1 = 0 ∧
      (streamRange 10485760 0 none).2.1 = min (0 + 4 * 1024 * 1024 - 1) (10485760 - 1) ∧
      0 ≤ (streamRange 10485760 0 none).2.1 ∧
      (streamRange 10485760 0 none).2.1 ≤ 10485760 - 1 ∧
      (streamRange 10485760 0 none).2.2 = (streamRange 10485760 0 none).2.1 - 0 + 1 ∧
      1 ≤ (streamRange 10485760 0 none).2.2 ∧
      (streamRange 10485760 0 none).2.2 ≤ 4194304) ∧
    streamRange 10485760 0 none = (0, 4194303, 4194304) ∧
    streamRange 10485760 10000000 none = (10000000, 10485759, 485760) :=
  ⟨stream_chunk_bounds 10485760 0 (by decide), by decide, by decide⟩

/-! ### Rejoin, late join and isolation -/

/-- C27: user `U` joins room `R` on connection `c1` and then on connection
`c2`, which replaces the entry of `c1`. After the disconnect of `c1` the roster
of `R` still holds the entry of `c2`, the only entry for `U`; and when `c1` had
no other entry in the roster of `R`, the disconnect leaves that roster exactly
as it was. -/
theorem stale_disconnect_keeps_rejoin (sv : Server) (R : Option String) (j1 j2 : Join)
    (hU : j2.userId = j1.userId) (hne : j1.c ≠ j2.c)
    (hl1 : sv.live j1.c = true) (hl2 : sv.live j2.c = true) :
    (∃ roster,
      (step (run sv [Join.input R j1, Join.input R j2]).1
        (Input.disconnect j1.c)).1.roomUsers (propKey R) = some roster ∧
      j2.entry ∈ roster ∧
      roster.filter (fun x => x.userId == j1.userId) = [j2.entry]) ∧
    ((∀ x ∈ (sv.roomUsers (propKey R)).getD [], x.socketId ≠ j1.c) →
      (step (run sv [Join.input R j1, Join.input R j2]).1
        (Input.disconnect j1.c)).1.roomUsers (propKey R)
        = (run sv [Join.input R j1, Join.input R j2]).1.roomUsers (propKey R)) := by
  obtain ⟨c1, e1, U, n1, a1⟩ := j1
  obtain ⟨c2, e2, U2, n2, a2⟩ := j2
  simp only at hU hne hl1 hl2
  subst hU
  have hne2 : ¬ c2 = c1 := fun h => hne h.symm
  have hs1 : step sv (Join.input R ⟨c1, e1, U2, n1, a1⟩) = joinRoom sv c1 R U2 n1 a1 := by
    simp [step, Join.input, hl1, handle]
  have hl2b : (joinRoom sv c1 R U2 n1 a1).1.live c2 = true := hl2
  have hs2 : step (joinRoom sv c1 R U2 n1 a1).1 (Join.input R ⟨c2, e2, U2, n2, a2⟩)
      = joinRoom (joinRoom sv c1 R U2 n1 a1).1 c2 R U2 n2 a2 := by
    simp [step, Join.input, hl2b, handle]
  have hrun : (run sv [Join.input R ⟨c1, e1, U2, n1, a1⟩, Join.input R ⟨c2, e2, U2, n2, a2⟩]).1
      = (joinRoom (joinRoom sv c1 R U2 n1 a1).1 c2 R U2 n2 a2).1 := by
    simp [run, hs1, hs2]
  rw [hrun]
  generalize hprev : (sv.roomUsers (propKey R)).getD [] = prev
  have hroster : (joinRoom (joinRoom sv c1 R U2 n1 a1).1 c2 R U2 n2 a2).1.roomUsers (propKey R)
      = some (prev.filter (fun x => x.userId != U2) ++ [⟨c2, U2, n2, a2⟩]) := by
    simp [joinRoom, setAt, hprev, List.filter_append, List.filter_filter]
  have hlive : (joinRoom (joinRoom sv c1 R U2 n1 a1).1 c2 R U2 n2 a2).1.live c1 = true := hl1
  have hdata : ((joinRoom (joinRoom sv c1 R U2 n1 a1).1 c2 R U2 n2 a2).1.data c1).roomId = R := by
    simp [joinRoom, setAt, hne]
  have hstep : step (joinRoom (joinRoom sv c1 R U2 n1 a1).1 c2 R U2 n2 a2).1 (Input.disconnect c1)
      = disconnect (joinRoom (joinRoom sv c1 R U2 n1 a1).1 c2 R U2 n2 a2).1 c1 := by
    simp [step, hlive]
  rw [hstep]
  by_cases ht : truthy R = true
  · have hd : (disconnect (joinRoom (joinRoom sv c1 R U2 n1 a1).1 c2 R U2 n2 a2).1 c1).1.roomUsers
        (propKey R)
        = some ((prev.filter (fun x : User => x.userId != U2)
            ++ [(⟨c2, U2, n2, a2⟩ : User)]).filter (fun x : User => x.socketId != c1)) := by
      simp only [disconnect, hdata, ht, if_true, setAt_same, hroster, Option.getD_some]
    rw [hd, hroster]
    constructor
    · refine ⟨_, rfl, ?_, ?_⟩
      · simp [Join.entry, hne2]
      · simp only [Join.entry, List.filter_append, List.filter_filter]
        have hnil : prev.filter (fun x : User =>
            x.userId == U2 && (x.socketId != c1 && x.userId != U2)) = [] := by
          rw [List.filter_eq_nil_iff]
          intro x _
          by_cases hx : x.userId = U2 <;> simp [hx]
        rw [hnil]
        simp [hne2]
    · intro hfresh
      congr 1
      rw [List.filter_eq_self]
      intro x hx
      rcases List.mem_append.1 hx with hx | hx
      · simpa using hfresh x (List.mem_filter.1 hx).1
      · simp only [List.mem_singleton] at hx
        subst hx
        simpa using hne2
  · have hf : truthy R = false := by simpa using ht
    have hd : (disconnect (joinRoom (joinRoom sv c1 R U2 n1 a1).1 c2 R U2 n2 a2).1 c1).1.roomUsers
        = (joinRoom (joinRoom sv c1 R U2 n1 a1).1 c2 R U2 n2 a2).1.roomUsers := by
      simp only [disconnect, hdata, hf]
      rfl
    rw [hd, hroster]
    constructor
    · refine ⟨_, rfl, ?_, ?_⟩
      · simp [Join.entry]
      · simp [Join.entry, List.filter_append, List.filter_filter]
    · intro _
      rfl

/-- Witness of C27: `ann` joins `R` on connection `c1`, rejoins on `c2`, and
`c1` is then closed. -/
theorem stale_disconnect_keeps_rejoin_witness :
    (∃ roster,
      (step (run (run Server.init [Input.connect "c1", Input.connect "c2"]).1
          [Join.input (some "R") ⟨"c1", ⟨1, 1, 0, ""⟩, some "u", some "ann", none⟩,
           Join.input (some "R") ⟨"c2", ⟨2, 2, 0, ""⟩, some "u", some "ann", none⟩]).1
        (Input.disconnect "c1")).1.roomUsers (propKey (some "R")) = some roster ∧
      (⟨"c2", some "u", some "ann", none⟩ : User) ∈ roster ∧
      roster.filter (fun x => x.userId == some "u") = [⟨"c2", some "u", some "ann", none⟩]) ∧
    ((∀ x ∈ ((run Server.init [Input.connect "c1", Input.connect "c2"]).1.roomUsers
          (propKey (some "R"))).getD [], x.socketId ≠ "c1") →
      (step (run (run Server.init [Input.connect "c1", Input.connect "c2"]).1
          [Join.input (some "R") ⟨"c1", ⟨1, 1, 0, ""⟩, some "u", some "ann", none⟩,
           Join.input (some "R") ⟨"c2", ⟨2, 2, 0, ""⟩, some "u", some "ann", none⟩]).1
        (Input.disconnect "c1")).1.roomUsers (propKey (some "R"))
        = (run (run Server.init [Input.connect "c1", Input.connect "c2"]).1
          [Join.input (some "R") ⟨"c1", ⟨1, 1, 0, ""⟩, some "u", some "ann", none⟩,
           Join.input (some "R") ⟨"c2", ⟨2, 2, 0, ""⟩, some "u", some "ann", none⟩]).1.roomUsers
            (propKey (some "R"))) :=
  stale_disconnect_keeps_rejoin (run Server.init [Input.connect "c1", Input.connect "c2"]).1
    (some "R") ⟨"c1", ⟨1, 1, 0, ""⟩, some "u", some "ann", none⟩
    ⟨"c2", ⟨2, 2, 0, ""⟩, some "u", some "ann", none⟩ rfl (by decide) (by rfl) (by rfl)

/-- C28: a `playback_event` for a room that has no cached playback state
creates one, holding the `currentTime` of the event, `playing` and `updatedAt`
and no `videoId`; a connection that joins the room right afterwards is sent
an `initial_sync` with that state, which a live joiner receives. -/
theorem playback_creates_cache (sv : Server) (c : String) (env : Env) (R : Option String)
    (state : Option String) (t : Option ℚ)
    (hnone : sv.roomState (propKey R) = none) :
    (playbackEvent sv c env R state t).1.roomState (propKey R)
      = some ⟨none, t, some (state == some "playing"), some env.now⟩ ∧
    (∀ (c2 : String) (U n a : Option String),
      (joinRoom (playbackEvent sv c env R state t).1 c2 R U n a).2.getLast?
        = some ⟨Target.self c2,
            Payload.initial_sync ⟨none, t, some (state == some "playing"), some env.now⟩⟩ ∧
      (sv.live c2 = true →
        ⟨Target.self c2,
          Payload.initial_sync ⟨none, t, some (state == some "playing"), some env.now⟩⟩
          ∈ received (joinRoom (playbackEvent sv c env R state t).1 c2 R U n a).1
              (joinRoom (playbackEvent sv c env R state t).1 c2 R U n a).2 c2)) := by
  have hst : (playbackEvent sv c env R state t).1.roomState (propKey R)
      = some ⟨none, t, some (state == some "playing"), some env.now⟩ := by
    simp [playbackEvent, setAt, hnone, PlaybackState.empty]
  refine ⟨hst, ?_⟩
  intro c2 U n a
  have hout : (joinRoom (playbackEvent sv c env R state t).1 c2 R U n a).2
      = [⟨Target.room R, Payload.room_users
            ((((playbackEvent sv c env R state t).1.roomUsers (propKey R)).getD []).filter
              (fun u => u.userId != U) ++ [⟨c2, U, n, a⟩])⟩,
         ⟨Target.others c2 R, Payload.user_joined n⟩,
         ⟨Target.self c2,
           Payload.initial_sync ⟨none, t, some (state == some "playing"), some env.now⟩⟩] := by
    simp only [joinRoom, hst]
    rfl
  refine ⟨by rw [hout]; rfl, ?_⟩
  intro hl
  rw [hout]
  have hl2 : (joinRoom (playbackEvent sv c env R state t).1 c2 R U n a).1.live c2 = true := hl
  simp [received, reaches, hl2]

/-- Witness of C28: `A` reports playback in room `R` before any video change;
`B` then joins `R`. -/
theorem playback_creates_cache_witness :
    (playbackEvent (run Server.init [Input.connect "A", Input.connect "B"]).1 "A"
        ⟨100, 101, 0, ""⟩ (some "R") (some "playing") (some 7)).1.roomState (propKey (some "R"))
      = some ⟨none, some 7, some ((some "playing" : Option String) == some "playing"),
          some 100⟩ ∧
    (∀ (c2 : String) (U n a : Option String),
      (joinRoom (playbackEvent (run Server.init [Input.connect "A", Input.connect "B"]).1 "A"
          ⟨100, 101, 0, ""⟩ (some "R") (some "playing") (some 7)).1 c2 (some "R") U n a).2.getLast?
        = some ⟨Target.self c2,
            Payload.initial_sync
              ⟨none, some 7, some ((some "playing" : Option String) == some "playing"),
                some 100⟩⟩ ∧
      ((run Server.init [Input.connect "A", Input.connect "B"]).1.live c2 = true →
        ⟨Target.self c2,
          Payload.initial_sync
            ⟨none, some 7, some ((some "playing" : Option String) == some "playing"),
              some 100⟩⟩
          ∈ received
              (joinRoom (playbackEvent (run Server.init [Input.connect "A", Input.connect "B"]).1
                "A" ⟨100, 101, 0, ""⟩ (some "R") (some "playing") (some 7)).1
                c2 (some "R") U n a).1
              (joinRoom (playbackEvent (run Server.init [Input.connect "A", Input.connect "B"]).1
                "A" ⟨100, 101, 0, ""⟩ (some "R") (some "playing") (some 7)).1
                c2 (some "R") U n a).2 c2)) :=
  playback_creates_cache (run Server.init [Input.connect "A", Input.connect "B"]).1 "A"
    ⟨100, 101, 0, ""⟩ (some "R") (some "playing") (some 7) (by rfl)

/-- Counterexample to C29 as stated: `B` is in the room whose id is the
string `"undefined"`, which has a roster and a cached state. `A` sends
`join_room` and then `video_change` without `roomId`, that is for another room,
and both rewrite what is stored for the room `"undefined"`: an absent room id
and the id `"undefined"` index the same property of the two maps. -/
theorem room_isolation_counterexample :
    (none : Option String) ≠ some "undefined" ∧
    (run Server.init
        [Input.connect "A", Input.connect "B",
         Join.input (some "undefined") ⟨"B", ⟨1, 1, 0, ""⟩, some "b", none, none⟩,
         Input.event "B" ⟨100, 100, 0, ""⟩
           (ClientEvent.video_change (some "undefined") (some ⟨some "v1", []⟩))]
      ).1.roomUsers (propKey (some "undefined")) = some [⟨"B", some "b", none, none⟩] ∧
    (run Server.init
        [Input.connect "A", Input.connect "B",
         Join.input (some "undefined") ⟨"B", ⟨1, 1, 0, ""⟩, some "b", none, none⟩,
         Input.event "B" ⟨100, 100, 0, ""⟩
           (ClientEvent.video_change (some "undefined") (some ⟨some "v1", []⟩)),
         Join.input none ⟨"A", ⟨2, 2, 0, ""⟩, some "a", none, none⟩]
      ).1.roomUsers (propKey (some "undefined"))
      = some [⟨"B", some "b", none, none⟩, ⟨"A", some "a", none, none⟩] ∧
    (run Server.init
        [Input.connect "A", Input.connect "B",
         Join.input (some "undefined") ⟨"B", ⟨1, 1, 0, ""⟩, some "b", none, none⟩,
         Input.event "B" ⟨100, 100, 0, ""⟩
           (ClientEvent.video_change (some "undefined") (some ⟨some "v1", []⟩))]
      ).1.roomState (propKey (some "undefined"))
      = some ⟨some "v1", some 0, some false, some 100⟩ ∧
    (run Server.init
        [Input.connect "A", Input.connect "B",
         Join.input (some "undefined") ⟨"B", ⟨1, 1, 0, ""⟩, some "b", none, none⟩,
         Input.event "B" ⟨100, 100, 0, ""⟩
           (ClientEvent.video_change (some "undefined") (some ⟨some "v1", []⟩)),
         Join.input none ⟨"A", ⟨2, 2, 0, ""⟩, some "a", none, none⟩,
         Input.event "A" ⟨200, 200, 0, ""⟩
           (ClientEvent.video_change none (some ⟨some "v9", []⟩))]
      ).1.roomState (propKey (some "undefined"))
      = some ⟨some "v9", some 0, some false, some 200⟩ := by
  refine ⟨by decide, by rfl, by rfl, by rfl, by rfl⟩

/-- C29 (amended): `join_room`, `video_change` and `playback_event` for room
`R` leave the roster and the cached state stored under every property name
other than that of `R` as they were, so those of every room whose id is
written differently (an absent id counting as `"undefined"`);
`sync_response` changes no roster and no cached state but that of the room
recorded in the sender's `socket.data`, and `disconnect` changes no cached
state and no roster but that of the room recorded in `socket.data`. -/
theorem room_isolation (sv : Server) (c : String) (env : Env) (R : Option String) :
    (∀ (U n a : Option String),
      (∀ k, k ≠ propKey R → (joinRoom sv c R U n a).1.roomUsers k = sv.roomUsers k) ∧
      (joinRoom sv c R U n a).1.roomState = sv.roomState) ∧
    (∀ video : Option Video,
      (∀ k, k ≠ propKey R → (videoChange sv c env R video).1.roomState k = sv.roomState k) ∧
      (videoChange sv c env R video).1.roomUsers = sv.roomUsers) ∧
    (∀ (state : Option String) (t : Option ℚ),
      (∀ k, k ≠ propKey R → (playbackEvent sv c env R state t).1.roomState k = sv.roomState k) ∧
      (playbackEvent sv c env R state t).1.roomUsers = sv.roomUsers) ∧
    (∀ (dest : Option String) (t : Option ℚ) (p : Option Bool) (v : Option String),
      (∀ k, k ≠ propKey (sv.data c).roomId →
        (syncResponse sv c dest t p v).1.roomState k = sv.roomState k) ∧
      (syncResponse sv c dest t p v).1.roomUsers = sv.roomUsers) ∧
    ((∀ k, k ≠ propKey (sv.data c).roomId →
        (disconnect sv c).1.roomUsers k = sv.roomUsers k) ∧
      (disconnect sv c).1.roomState = sv.roomState) := by
  refine ⟨?_, ?_, ?_, ?_, ?_⟩
  · intro U n a
    exact ⟨fun k hk => by simp [joinRoom, setAt, hk], rfl⟩
  · intro video
    exact ⟨fun k hk => by simp [videoChange, setAt, hk], rfl⟩
  · intro state t
    exact ⟨fun k hk => by simp [playbackEvent, setAt, hk], rfl⟩
  · intro dest t p v
    constructor
    · intro k hk
      simp only [syncResponse]
      split
      · simp [setAt, hk]
      · rfl
    · simp only [syncResponse]
      split <;> rfl
  · constructor
    · intro k hk
      simp only [disconnect]
      split
      · simp [setAt, hk]
      · rfl
    · simp only [disconnect]
      split <;> rfl

/-- Witness of C29 (amended): room `R2` has a roster and a cached state; `A` joins room
`R`, changes its video and reports playback there. -/
theorem room_isolation_witness :
    (joinRoom (run Server.init
        [Input.connect "A", Input.connect "B",
         Join.input (some "R2") ⟨"B", ⟨1, 1, 0, ""⟩, some "b", none, none⟩,
         Input.event "B" ⟨2, 2, 0, ""⟩
           (ClientEvent.video_change (some "R2") (some ⟨some "v2", []⟩))]).1
      "A" (some "R") (some "a") none none).1.roomUsers "R2"
      = (run Server.init
        [Input.connect "A", Input.connect "B",
         Join.input (some "R2") ⟨"B", ⟨1, 1, 0, ""⟩, some "b", none, none⟩,
         Input.event "B" ⟨2, 2, 0, ""⟩
           (ClientEvent.video_change (some "R2") (some ⟨some "v2", []⟩))]).1.roomUsers "R2" ∧
    (playbackEvent (run Server.init
        [Input.connect "A", Input.connect "B",
         Join.input (some "R2") ⟨"B", ⟨1, 1, 0, ""⟩, some "b", none, none⟩,
         Input.event "B" ⟨2, 2, 0, ""⟩
           (ClientEvent.video_change (some "R2") (some ⟨some "v2", []⟩))]).1
      "A" ⟨3, 3, 0, ""⟩ (some "R") (some "playing") (some 9)).1.roomState "R2"
      = (run Server.init
        [Input.connect "A", Input.connect "B",
         Join.input (some "R2") ⟨"B", ⟨1, 1, 0, ""⟩, some "b", none, none⟩,
         Input.event "B" ⟨2, 2, 0, ""⟩
           (ClientEvent.video_change (some "R2") (some ⟨some "v2", []⟩))]).1.roomState "R2" :=
  ⟨((room_isolation _ "A" ⟨3, 3, 0, ""⟩ (some "R")).1 (some "a") none none).1 "R2" (by decide),
   ((room_isolation _ "A" ⟨3, 3, 0, ""⟩ (some "R")).2.2.1 (some "playing") (some 9)).1 "R2"
     (by decide)⟩

/-! ### No eviction -/

/-- No turn of the event loop removes a cached playback state. -/
theorem step_cache_stays (sv : Server) (i : Input) (k : String)
    (h : (sv.roomState k).isSome = true) : ((step sv i).1.roomState k).isSome = true := by
  cases i with
  | connect c =>
    simp only [step]
    split <;> exact h
  | disconnect c =>
    simp only [step]
    split
    · simp only [disconnect]
      split <;> exact h
    · exact h
  | event c env ev =>
    simp only [step]
    split
    · cases ev with
      | video_change r v =>
        simp only [handle, videoChange, setAt]
        split
        · rfl
        · exact h
      | playback_event r state t =>
        simp only [handle, playbackEvent, setAt]
        split
        · rfl
        · exact h
      | sync_response dest t p v =>
        simp only [handle, syncResponse]
        split
        · simp only [setAt]
          split
          · rfl
          · exact h
        · exact h
      | _ => exact h
    · exact h

/-- A turn that is none of the three writers leaves `roomState` as it is. -/
theorem step_keepsCache (sv : Server) (i : Input) (hi : keepsCache i = true) :
    (step sv i).1.roomState = sv.roomState := by
  cases i with
  | connect c =>
    simp only [step]
    split <;> rfl
  | disconnect c =>
    simp only [step]
    split
    · simp only [disconnect]
      split <;> rfl
    · rfl
  | event c env ev =>
    simp only [step]
    split
    · cases ev with
      | video_change r v => simp [keepsCache] at hi
      | playback_event r state t => simp [keepsCache] at hi
      | sync_response dest t p v => simp [keepsCache] at hi
      | _ => rfl
    · rfl

/-- C30: once `roomState` has an entry for a room, it has one after every
later sequence of inputs, disconnects of all participants included; inputs
other than `video_change`, `playback_event` and `sync_response` leave the
entry exactly as it was; and a connection that joins the room afterwards is
sent an `initial_sync` with the entry as it then is. -/
theorem cache_never_evicted (sv : Server) (k : String) (st : PlaybackState)
    (h : sv.roomState k = some st) (inputs : List Input) :
    ((run sv inputs).1.roomState k).isSome = true ∧
    ((∀ i ∈ inputs, keepsCache i = true) → (run sv inputs).1.roomState k = some st) ∧
    (∀ (c : String) (R U n a : Option String), propKey R = k →
      ∃ st', (run sv inputs).1.roomState k = some st' ∧
        (joinRoom (run sv inputs).1 c R U n a).2.getLast?
          = some ⟨Target.self c, Payload.initial_sync st'⟩) := by
  have hsome : ((run sv inputs).1.roomState k).isSome = true := by
    have h0 : (sv.roomState k).isSome = true := by simp [h]
    clear h
    induction inputs generalizing sv with
    | nil => simpa [run] using h0
    | cons i rest ih =>
      simp only [run]
      exact ih _ (step_cache_stays sv i k h0)
  refine ⟨hsome, ?_, ?_⟩
  · intro hk
    induction inputs generalizing sv with
    | nil => simpa [run] using h
    | cons i rest ih =>
      simp only [run]
      have h1 : (step sv i).1.roomState k = some st := by
        rw [step_keepsCache sv i (hk i (List.mem_cons_self _ _))]
        exact h
      exact ih _ h1 (by simpa [run] using hsome) (fun j hj => hk j (List.mem_cons_of_mem _ hj))
  · intro c R U n a hR
    obtain ⟨st', hst'⟩ := Option.isSome_iff_exists.1 hsome
    refine ⟨st', hst', ?_⟩
    subst hR
    simp only [joinRoom, hst']
    rfl

/-- Witness of C30: room `R` has a cached state; its only participant
disconnects, and a new connection joins the emptied room. -/
theorem cache_never_evicted_witness :
    ((run (run Server.init
        [Input.connect "A", Input.connect "B",
         Join.input (some "R") ⟨"A", ⟨1, 1, 0, ""⟩, some "a", none, none⟩,
         Input.event "A" ⟨100, 100, 0, ""⟩
           (ClientEvent.video_change (some "R") (some ⟨some "v1", []⟩))]).1
        [Input.disconnect "A"]).1.roomState "R").isSome = true ∧
    ((∀ i ∈ [Input.disconnect "A"], keepsCache i = true) →
      (run (run Server.init
        [Input.connect "A", Input.connect "B",
         Join.input (some "R") ⟨"A", ⟨1, 1, 0, ""⟩, some "a", none, none⟩,
         Input.event "A" ⟨100, 100, 0, ""⟩
           (ClientEvent.video_change (some "R") (some ⟨some "v1", []⟩))]).1
        [Input.disconnect "A"]).1.roomState "R"
        = some ⟨some "v1", some 0, some false, some 100⟩) ∧
    (∀ (c : String) (R U n a : Option String), propKey R = "R" →
      ∃ st', (run (run Server.init
        [Input.connect "A", Input.connect "B",
         Join.input (some "R") ⟨"A", ⟨1, 1, 0, ""⟩, some "a", none, none⟩,
         Input.event "A" ⟨100, 100, 0, ""⟩
           (ClientEvent.video_change (some "R") (some ⟨some "v1", []⟩))]).1
        [Input.disconnect "A"]).1.roomState "R" = some st' ∧
        (joinRoom (run (run Server.init
          [Input.connect "A", Input.connect "B",
           Join.input (some "R") ⟨"A", ⟨1, 1, 0, ""⟩, some "a", none, none⟩,
           Input.event "A" ⟨100, 100, 0, ""⟩
             (ClientEvent.video_change (some "R") (some ⟨some "v1", []⟩))]).1
          [Input.disconnect "A"]).1 c R U n a).2.getLast?
          = some ⟨Target.self c, Payload.initial_sync st'⟩) :=
  cache_never_evicted _ "R" ⟨some "v1", some 0, some false, some 100⟩ (by rfl)
    [Input.disconnect "A"]

end WatchParty
